import Mathlib

/-
  Verification of the analytical kinematics engine of the physics sandbox
  repository.

  The engine is shallowly embedded over an arbitrary linear ordered field K.
  The transcendental kernel of the host math library (cosine, sine, square
  root) is abstracted as explicit function parameters kcos, ksin, ksqrt
  (respectively cosd, sind for the degree-based projectile variant): every
  theorem below holds uniformly in these functions, and witnesses
  instantiate K with the rationals.  Purely visual resources (scene objects,
  mesh geometry, materials, trail lines) are modelled only through the
  observable fields the engine itself reads or writes: the mesh position,
  material opacity, presence flags, and a ghost counter recording how often
  dispose was invoked on an entity.
-/

namespace PhysicsSandbox

/-- Three component vector, mirroring the x, y, z fields used by the engine. -/
@[ext]
structure Vec3 (K : Type) where
  x : K
  y : K
  z : K
deriving DecidableEq

/-- Live stats snapshot recomputed each frame for the UI.  The source object
initially has six fields; maxHeight and range are added dynamically in the
projectile branch, modelled here as fields initialised to 0. -/
@[ext]
structure Stats (K : Type) where
  speed : K
  displacement : K
  accelerationMag : K
  centripetalAccel : K
  timeToImpact : K
  impactVelocity : K
  maxHeight : K
  range : K
deriving DecidableEq

/-- State of one MotionObject (motion_object.js).  meshPos and meshPresent
stand for the mesh visual; disposeCalls is a ghost counter counting dispose
invocations (the source nulls the mesh there). -/
@[ext]
structure MotionObject (K : Type) where
  motionType : String
  position : Vec3 K
  velocity : Vec3 K
  acceleration : Vec3 K
  mass : K
  initialPosition : Vec3 K
  initialVelocity : Vec3 K
  elapsedTime : K
  gravity : K
  dropHeight : K
  circularRadius : K
  angularVelocity : K
  circularClockwise : Bool
  circularCenter : Vec3 K
  frameVelocity : Vec3 K
  viewInWorldFrame : Bool
  dragMode : String
  dragCoefficient : K
  restitution : K
  bounceEnabled : Bool
  bounceThreshold : K
  isStopped : Bool
  isLaunched : Bool
  status : String
  stats : Stats K
  trailPoints : List (Vec3 K)
  maxTrailPoints : Nat
  meshPos : Vec3 K
  meshPresent : Bool
  disposeCalls : Nat
deriving DecidableEq

/-- Constructor parameter object for MotionObject.  Fields whose JS default
is a nonzero value or is derived from the spawn position are Options (absent
= none); numeric fields defaulted with x or 0 are plain with default 0
(passing the falsy 0 coincides with absence for those). -/
structure MotionParams (K : Type) [Zero K] where
  motionType : Option String := none
  vx : K := 0
  vy : K := 0
  vz : K := 0
  ax : K := 0
  ay : K := 0
  az : K := 0
  mass : Option K := none
  gravity : Option K := none
  dropHeight : Option K := none
  circularRadius : Option K := none
  angularVelocity : Option K := none
  circularClockwise : Bool := false
  frameVx : K := 0
  frameVy : K := 0
  frameVz : K := 0
  dragMode : Option String := none
  dragCoefficient : Option K := none
  restitution : Option K := none
  bounceEnabled : Option Bool := none

variable {K : Type} [LinearOrderedField K]

/-- MotionObject constructor (motion_object.js constructor). -/
def mkMotionObject (position : Vec3 K) (params : MotionParams K) : MotionObject K :=
  let velocity : Vec3 K := ⟨params.vx, params.vy, params.vz⟩
  { motionType := params.motionType.getD ("linear")
    position := position
    velocity := velocity
    acceleration := ⟨params.ax, params.ay, params.az⟩
    mass := params.mass.getD 1
    initialPosition := position
    initialVelocity := velocity
    elapsedTime := 0
    gravity := params.gravity.getD (49 / 5)
    dropHeight := params.dropHeight.getD position.y
    circularRadius := params.circularRadius.getD 5
    angularVelocity := params.angularVelocity.getD 1
    circularClockwise := params.circularClockwise
    circularCenter := position
    frameVelocity := ⟨params.frameVx, params.frameVy, params.frameVz⟩
    viewInWorldFrame := true
    dragMode := params.dragMode.getD ("none")
    dragCoefficient := params.dragCoefficient.getD (1 / 10)
    restitution := params.restitution.getD (7 / 10)
    bounceEnabled := params.bounceEnabled.getD true
    bounceThreshold := 1 / 10
    isStopped := false
    isLaunched := false
    status := "idle"
    stats := ⟨0, 0, 0, 0, 0, 0, 0, 0⟩
    trailPoints := []
    maxTrailPoints := 200
    meshPos := position
    meshPresent := true
    disposeCalls := 0 }

/-- MotionObject.launch.  Note: the source has no already-launched guard. -/
def MotionObject.launch (e : MotionObject K) : MotionObject K :=
  let e := { e with isLaunched := true, status := "active", elapsedTime := 0,
                    isStopped := false,
                    initialPosition := e.position, initialVelocity := e.velocity }
  let e := if e.motionType = "freefall" then
      { e with acceleration := ⟨0, -e.gravity, 0⟩,
               velocity := ⟨0, 0, 0⟩, initialVelocity := ⟨0, 0, 0⟩ }
    else e
  let e := if e.motionType = "projectile" then
      { e with acceleration := ⟨0, -e.gravity, 0⟩ }
    else e
  if e.motionType = "circular" then
    let c := e.position
    let p : Vec3 K := ⟨c.x + e.circularRadius, c.y, c.z⟩
    { e with circularCenter := c, position := p, initialPosition := p }
  else e

/-- MotionObject.reset.  Restores position and velocity from the current
initial-condition snapshot (trail line removal is visual only). -/
def MotionObject.reset (e : MotionObject K) : MotionObject K :=
  { e with position := e.initialPosition, velocity := e.initialVelocity,
           meshPos := e.initialPosition, elapsedTime := 0,
           isLaunched := false, isStopped := false, status := "idle",
           trailPoints := [] }

/-- Squared-sum length of a vector through the abstract square root. -/
def vlen (ksqrt : K → K) (v : Vec3 K) : K :=
  ksqrt (v.x * v.x + v.y * v.y + v.z * v.z)

/-- MotionObject._applyDrag. -/
def MotionObject.applyDrag (ksqrt : K → K) (e : MotionObject K) (dt : K) :
    MotionObject K :=
  if e.dragMode = "none" then e
  else
    let k := e.dragCoefficient
    let m := e.mass
    let speed := vlen ksqrt e.velocity
    if speed < 1 / 1000 then e
    else if e.dragMode = "linear" then
      { e with velocity := ⟨e.velocity.x - k * e.velocity.x / m * dt,
                            e.velocity.y - k * e.velocity.y / m * dt,
                            e.velocity.z - k * e.velocity.z / m * dt⟩ }
    else if e.dragMode = "quadratic" then
      { e with velocity := ⟨e.velocity.x - k * speed * e.velocity.x / m * dt,
                            e.velocity.y - k * speed * e.velocity.y / m * dt,
                            e.velocity.z - k * speed * e.velocity.z / m * dt⟩ }
    else e

/-- MotionObject._handleGroundCollision. -/
def MotionObject.handleGroundCollision (e : MotionObject K) : MotionObject K :=
  if e.position.y ≤ 0 ∧ e.velocity.y < 0 then
    let e := { e with position := ⟨e.position.x, 0, e.position.z⟩ }
    if e.bounceEnabled = true ∧ 0 < e.restitution then
      let e := { e with velocity :=
        ⟨e.velocity.x, -e.restitution * e.velocity.y, e.velocity.z⟩ }
      let e := if |e.velocity.y| < e.bounceThreshold then
          { e with velocity := ⟨e.velocity.x, 0, e.velocity.z⟩,
                   isStopped := true, status := "stopped" }
        else e
      { e with initialPosition := e.position, initialVelocity := e.velocity,
               elapsedTime := 0 }
    else
      { e with velocity := ⟨e.velocity.x, 0, e.velocity.z⟩,
               isStopped := true, status := "stopped" }
  else e

/-- MotionObject._updateLinear. -/
def MotionObject.updateLinear (ksqrt : K → K) (e : MotionObject K) (dt : K) :
    MotionObject K :=
  let e := e.applyDrag ksqrt dt
  let e :=
    if e.dragMode = "none" then
      let t := e.elapsedTime
      { e with position := ⟨e.initialPosition.x + e.initialVelocity.x * t,
                            e.initialPosition.y + e.initialVelocity.y * t,
                            e.initialPosition.z + e.initialVelocity.z * t⟩ }
    else
      { e with position := ⟨e.position.x + e.velocity.x * dt,
                            e.position.y + e.velocity.y * dt,
                            e.position.z + e.velocity.z * dt⟩ }
  e.handleGroundCollision

/-- MotionObject._updateAccelerated. -/
def MotionObject.updateAccelerated (ksqrt : K → K) (e : MotionObject K) (dt : K) :
    MotionObject K :=
  let e := e.applyDrag ksqrt dt
  let e :=
    if e.dragMode = "none" then
      let t := e.elapsedTime
      { e with
        position := ⟨e.initialPosition.x + e.initialVelocity.x * t
                       + 1 / 2 * e.acceleration.x * t * t,
                     e.initialPosition.y + e.initialVelocity.y * t
                       + 1 / 2 * e.acceleration.y * t * t,
                     e.initialPosition.z + e.initialVelocity.z * t
                       + 1 / 2 * e.acceleration.z * t * t⟩,
        velocity := ⟨e.initialVelocity.x + e.acceleration.x * t,
                     e.initialVelocity.y + e.acceleration.y * t,
                     e.initialVelocity.z + e.acceleration.z * t⟩ }
    else
      let v : Vec3 K := ⟨e.velocity.x + e.acceleration.x * dt,
                         e.velocity.y + e.acceleration.y * dt,
                         e.velocity.z + e.acceleration.z * dt⟩
      { e with velocity := v,
               position := ⟨e.position.x + v.x * dt,
                            e.position.y + v.y * dt,
                            e.position.z + v.z * dt⟩ }
  e.handleGroundCollision

/-- MotionObject._updateFreefall. -/
def MotionObject.updateFreefall (ksqrt : K → K) (e : MotionObject K) (dt : K) :
    MotionObject K :=
  let e := e.applyDrag ksqrt dt
  let e :=
    if e.dragMode = "none" then
      let t := e.elapsedTime
      let g := e.gravity
      { e with position := ⟨e.initialPosition.x,
                            e.initialPosition.y - 1 / 2 * g * t * t,
                            e.initialPosition.z⟩,
               velocity := ⟨e.velocity.x, -g * t, e.velocity.z⟩ }
    else
      let v : Vec3 K := ⟨e.velocity.x, e.velocity.y + -e.gravity * dt, e.velocity.z⟩
      { e with velocity := v,
               position := ⟨e.position.x + v.x * dt,
                            e.position.y + v.y * dt,
                            e.position.z + v.z * dt⟩ }
  e.handleGroundCollision

/-- MotionObject._updateProjectile. -/
def MotionObject.updateProjectile (ksqrt : K → K) (e : MotionObject K) (dt : K) :
    MotionObject K :=
  let e := e.applyDrag ksqrt dt
  let e :=
    if e.dragMode = "none" then
      let t := e.elapsedTime
      let g := e.gravity
      { e with
        position := ⟨e.initialPosition.x + e.initialVelocity.x * t,
                     e.initialPosition.y + e.initialVelocity.y * t
                       - 1 / 2 * g * t * t,
                     e.initialPosition.z + e.initialVelocity.z * t⟩,
        velocity := ⟨e.initialVelocity.x,
                     e.initialVelocity.y - g * t,
                     e.initialVelocity.z⟩ }
    else
      let v : Vec3 K := ⟨e.velocity.x, e.velocity.y + -e.gravity * dt, e.velocity.z⟩
      { e with velocity := v,
               position := ⟨e.position.x + v.x * dt,
                            e.position.y + v.y * dt,
                            e.position.z + v.z * dt⟩ }
  e.handleGroundCollision

/-- MotionObject._updateCircular (no drag, no ground collision). -/
def MotionObject.updateCircular (kcos ksin : K → K) (e : MotionObject K)
    (_dt : K) : MotionObject K :=
  let t := e.elapsedTime
  let r := e.circularRadius
  let w := e.angularVelocity
  let sign : K := if e.circularClockwise = true then -1 else 1
  { e with
    position := ⟨e.circularCenter.x + r * kcos (sign * w * t),
                 e.circularCenter.y,
                 e.circularCenter.z + r * ksin (sign * w * t)⟩,
    velocity := ⟨-r * w * ksin (sign * w * t) * sign, 0,
                 r * w * kcos (sign * w * t) * sign⟩ }

/-- MotionObject._updateRelative.  When not viewing in the world frame the
source sets the mesh to a frame-relative position and returns before the
ground test; the caller of this method then overwrites the mesh with the
plain position again (the sync step in update). -/
def MotionObject.updateRelative (ksqrt : K → K) (e : MotionObject K) (dt : K) :
    MotionObject K :=
  let e := e.applyDrag ksqrt dt
  let tv : Vec3 K := ⟨e.velocity.x + e.frameVelocity.x,
                      e.velocity.y + e.frameVelocity.y,
                      e.velocity.z + e.frameVelocity.z⟩
  let e := { e with position := ⟨e.position.x + tv.x * dt,
                                 e.position.y + tv.y * dt,
                                 e.position.z + tv.z * dt⟩ }
  if e.viewInWorldFrame = false then
    { e with meshPos := ⟨e.position.x - e.frameVelocity.x * e.elapsedTime,
                         e.position.y - e.frameVelocity.y * e.elapsedTime,
                         e.position.z - e.frameVelocity.z * e.elapsedTime⟩ }
  else
    e.handleGroundCollision

/-- MotionObject._computeStats. -/
def MotionObject.computeStats (ksqrt : K → K) (e : MotionObject K) :
    MotionObject K :=
  let speed := vlen ksqrt e.velocity
  let disp := vlen ksqrt ⟨e.position.x - e.initialPosition.x,
                          e.position.y - e.initialPosition.y,
                          e.position.z - e.initialPosition.z⟩
  let s := { e.stats with speed := speed, displacement := disp,
                          accelerationMag := vlen ksqrt e.acceleration }
  let s := if e.motionType = "circular" then
      { s with centripetalAccel :=
          e.angularVelocity * e.angularVelocity * e.circularRadius }
    else s
  let s := if e.motionType = "freefall" ∧ 0 < e.initialPosition.y ∧ 0 < e.gravity then
      let tImpact := ksqrt (2 * e.dropHeight / e.gravity)
      { s with timeToImpact := max 0 (tImpact - e.elapsedTime),
               impactVelocity := e.gravity * tImpact }
    else s
  let s := if e.motionType = "projectile" ∧ 0 < e.gravity then
      let vy0 := e.initialVelocity.y
      let g := e.gravity
      let tFlight := if 0 < vy0 then 2 * vy0 / g else 0
      let maxH := if 0 < vy0 then vy0 * vy0 / (2 * g) else 0
      let vHoriz := ksqrt (e.initialVelocity.x ^ 2 + e.initialVelocity.z ^ 2)
      { s with timeToImpact := max 0 (tFlight - e.elapsedTime),
               maxHeight := maxH,
               range := vHoriz * tFlight,
               impactVelocity := ksqrt (vHoriz ^ 2 + (vy0 - g * tFlight) ^ 2) }
    else s
  { e with stats := s }

/-- MotionObject._updateTrail (geometry rebuilding is visual only). -/
def MotionObject.updateTrail (e : MotionObject K) : MotionObject K :=
  let tp := e.trailPoints ++ [e.position]
  let tp := if e.maxTrailPoints < tp.length then tp.drop 1 else tp
  { e with trailPoints := tp }

/-- MotionObject.update: the per-frame entry point.  Returns the updated
state together with the returned status string. -/
def MotionObject.update (kcos ksin ksqrt : K → K) (e : MotionObject K)
    (dt : K) : MotionObject K × String :=
  if e.isLaunched = false ∨ e.isStopped = true then (e, e.status)
  else
    let e := { e with elapsedTime := e.elapsedTime + dt }
    let e :=
      match e.motionType with
      | "linear" => e.updateLinear ksqrt dt
      | "accelerated" => e.updateAccelerated ksqrt dt
      | "freefall" => e.updateFreefall ksqrt dt
      | "projectile" => e.updateProjectile ksqrt dt
      | "circular" => e.updateCircular kcos ksin dt
      | "relative" => e.updateRelative ksqrt dt
      | _ => e.updateLinear ksqrt dt
    let e := { e with meshPos := e.position }
    let e := e.updateTrail
    let e := e.computeStats ksqrt
    (e, e.status)

/-- One sampled point of MotionObject.computePreviewPoints at preview time t. -/
def MotionObject.previewPoint (kcos ksin : K → K) (e : MotionObject K) (t : K) :
    Vec3 K :=
  match e.motionType with
  | "linear" =>
      ⟨e.initialPosition.x + e.initialVelocity.x * t,
       e.initialPosition.y + e.initialVelocity.y * t,
       e.initialPosition.z + e.initialVelocity.z * t⟩
  | "accelerated" =>
      ⟨e.initialPosition.x + e.initialVelocity.x * t + 1 / 2 * e.acceleration.x * t * t,
       e.initialPosition.y + e.initialVelocity.y * t + 1 / 2 * e.acceleration.y * t * t,
       e.initialPosition.z + e.initialVelocity.z * t + 1 / 2 * e.acceleration.z * t * t⟩
  | "freefall" =>
      ⟨e.initialPosition.x,
       e.initialPosition.y - 1 / 2 * e.gravity * t * t,
       e.initialPosition.z⟩
  | "projectile" =>
      ⟨e.initialPosition.x + e.initialVelocity.x * t,
       e.initialPosition.y + e.initialVelocity.y * t - 1 / 2 * e.gravity * t * t,
       e.initialPosition.z + e.initialVelocity.z * t⟩
  | "circular" =>
      let sign : K := if e.circularClockwise = true then -1 else 1
      ⟨e.circularCenter.x + e.circularRadius * kcos (sign * e.angularVelocity * t),
       e.circularCenter.y,
       e.circularCenter.z + e.circularRadius * ksin (sign * e.angularVelocity * t)⟩
  | "relative" =>
      ⟨e.initialPosition.x + (e.velocity.x + e.frameVelocity.x) * t,
       e.initialPosition.y + e.velocity.y * t,
       e.initialPosition.z + (e.velocity.z + e.frameVelocity.z) * t⟩
  | _ =>
      ⟨e.initialPosition.x + e.initialVelocity.x * t,
       e.initialPosition.y + e.initialVelocity.y * t,
       e.initialPosition.z + e.initialVelocity.z * t⟩

/-- The preview sampling loop: first argument is the remaining iteration
budget, second the current index i (preview step dt = 0.05 = 1/20). -/
def MotionObject.previewAux (kcos ksin : K → K) (e : MotionObject K) :
    Nat → Nat → List (Vec3 K)
  | 0, _ => []
  | remaining + 1, i =>
    let t := (i : K) * (1 / 20)
    let p := e.previewPoint kcos ksin t
    let py := if p.y < 0 then 0 else p.y
    let q : Vec3 K := ⟨p.x, py, p.z⟩
    if py ≤ 0 ∧ 0 < i ∧ e.motionType ≠ "circular" then [q]
    else q :: MotionObject.previewAux kcos ksin e remaining (i + 1)

/-- MotionObject.computePreviewPoints: non-mutating in the source (it writes
no instance field), hence embedded as a pure function of the state. -/
def MotionObject.computePreviewPoints (kcos ksin : K → K) (e : MotionObject K)
    (numPoints : Nat) : List (Vec3 K) :=
  MotionObject.previewAux kcos ksin e numPoints 0

/-- MotionObject.dispose: releases the mesh; the ghost counter records the
call. -/
def MotionObject.dispose (e : MotionObject K) : MotionObject K :=
  { e with meshPresent := false, disposeCalls := e.disposeCalls + 1 }

/-- KinematicsSimulation: the orchestrator over MotionObject entities. -/
structure KinematicsSimulation (K : Type) where
  motionObjects : List (MotionObject K)
  timeScale : K

/-- The reverse-iteration update loop of KinematicsSimulation.update.  The
source iterates from the last index down and splices removed entries in
place; entities are updated independently, so this recursion produces the
same surviving list (original relative order) and additionally returns the
trace of entities on which dispose was called. -/
def simLoop (kcos ksin ksqrt : K → K) (dt : K) :
    List (MotionObject K) → List (MotionObject K) × List (MotionObject K)
  | [] => ([], [])
  | o :: rest =>
    let p := simLoop kcos ksin ksqrt dt rest
    let u := MotionObject.update kcos ksin ksqrt o dt
    if u.2 = "remove" then (p.1, u.1.dispose :: p.2)
    else (u.1 :: p.1, p.2)

/-- KinematicsSimulation.update: scales deltaTime by timeScale, updates every
entity, and evicts (disposing) those that return remove.  The second
component is the ghost trace of disposed entities. -/
def KinematicsSimulation.update (kcos ksin ksqrt : K → K)
    (s : KinematicsSimulation K) (deltaTime : K) :
    KinematicsSimulation K × List (MotionObject K) :=
  let scaledDt := deltaTime * s.timeScale
  let r := simLoop kcos ksin ksqrt scaledDt s.motionObjects
  ({ s with motionObjects := r.1 }, r.2)

/-- Iterated orchestrator updates over a list of frame deltas. -/
def KinematicsSimulation.updates (kcos ksin ksqrt : K → K) :
    KinematicsSimulation K → List K → KinematicsSimulation K
  | s, [] => s
  | s, d :: ds =>
      KinematicsSimulation.updates kcos ksin ksqrt
        (KinematicsSimulation.update kcos ksin ksqrt s d).1 ds

/-- Iterated MotionObject.update over a list of frame deltas (state only). -/
def MotionObject.updatesE (kcos ksin ksqrt : K → K) :
    MotionObject K → List K → MotionObject K
  | e, [] => e
  | e, d :: ds =>
      MotionObject.updatesE kcos ksin ksqrt
        (MotionObject.update kcos ksin ksqrt e d).1 ds

/-- State of one Projectile (player.js).  The visual mesh, its material
opacity and transparency flag, the launch ring and the trajectory line are
modelled through the fields the class reads or writes; disposeCalls is the
ghost dispose counter. -/
@[ext]
structure Projectile (K : Type) where
  initialVelocity : K
  angle : K
  gravity : K
  mass : K
  launchPosition : Vec3 K
  elapsedTime : K
  isLaunched : Bool
  hasLanded : Bool
  landedTimer : K
  groundLevel : K
  vx : K
  vy : K
  launchDir : Vec3 K
  meshPos : Vec3 K
  meshPresent : Bool
  opacity : K
  transparent : Bool
  ringPresent : Bool
  trajectoryLinePresent : Bool
  disposeCalls : Nat
deriving DecidableEq

/-- Constructor parameter object for Projectile (nullish-coalescing
defaults, so Option.getD is the exact model). -/
structure ProjectileParams (K : Type) where
  velocity : Option K := none
  angle : Option K := none
  gravity : Option K := none
  mass : Option K := none

/-- Projectile constructor (player.js). -/
def mkProjectile (position : Vec3 K) (params : ProjectileParams K) :
    Projectile K :=
  { initialVelocity := params.velocity.getD 20
    angle := params.angle.getD 45
    gravity := params.gravity.getD (981 / 100)
    mass := params.mass.getD 1
    launchPosition := position
    elapsedTime := 0
    isLaunched := false
    hasLanded := false
    landedTimer := 0
    groundLevel := 0
    vx := 0
    vy := 0
    launchDir := ⟨1, 0, 0⟩
    meshPos := position
    meshPresent := true
    opacity := 1
    transparent := false
    ringPresent := true
    trajectoryLinePresent := false
    disposeCalls := 0 }

/-- Projectile.launch.  Guarded: a no-op when already launched.  cosd and
sind abstract cosine and sine of a degree-valued angle (the source converts
with degToRad before calling the math library). -/
def Projectile.launch (cosd sind : K → K) (p : Projectile K) : Projectile K :=
  if p.isLaunched = true then p
  else
    { p with vx := p.initialVelocity * cosd p.angle,
             vy := p.initialVelocity * sind p.angle,
             elapsedTime := 0, isLaunched := true, hasLanded := false,
             landedTimer := 0, ringPresent := false,
             trajectoryLinePresent := false }

/-- Projectile.reset. -/
def Projectile.reset (p : Projectile K) : Projectile K :=
  { p with isLaunched := false, hasLanded := false, elapsedTime := 0,
           landedTimer := 0, vx := 0, vy := 0, meshPos := p.launchPosition }

/-- Projectile.applyDrag: the extensibility hook, identity in the base
implementation. -/
def Projectile.applyDrag (_p : Projectile K) (vx vy : K) : K × K := (vx, vy)

/-- Projectile.update.  The material opacity guard in the source always
holds for the sphere material, so the fade assignment is unconditional. -/
def Projectile.update (p : Projectile K) (dt : K) : Projectile K × String :=
  if p.isLaunched = false then (p, "active")
  else if p.hasLanded = true then
    let p := { p with landedTimer := p.landedTimer + dt }
    if 2 ≤ p.landedTimer then (p, "remove")
    else
      let p := { p with transparent := true,
                        opacity := max 0 (1 - p.landedTimer / 2) }
      (p, "landed")
  else
    let p := { p with elapsedTime := p.elapsedTime + dt }
    let t := p.elapsedTime
    let adj := p.applyDrag p.vx p.vy
    let dx := adj.1 * t
    let dy := adj.2 * t - 1 / 2 * p.gravity * t * t
    let newX := p.launchPosition.x + p.launchDir.x * dx
    let newZ := p.launchPosition.z + p.launchDir.z * dx
    let newY := p.launchPosition.y + dy
    let landed := newY ≤ p.groundLevel
    let newY := if landed then p.groundLevel else newY
    let p := if landed then { p with hasLanded := true, landedTimer := 0 } else p
    let p := { p with meshPos := ⟨newX, newY, newZ⟩ }
    (p, if p.hasLanded = true then "landed" else "active")

/-- Projectile.dispose: releases the trajectory line, mesh and ring; the
ghost counter records the call. -/
def Projectile.dispose (p : Projectile K) : Projectile K :=
  { p with trajectoryLinePresent := false, meshPresent := false,
           ringPresent := false, disposeCalls := p.disposeCalls + 1 }

/-- PhysicsSimulation: the orchestrator over Projectile entities. -/
structure PhysicsSimulation (K : Type) where
  projectiles : List (Projectile K)
  timeScale : K

/-- The reverse-iteration update loop of PhysicsSimulation.update, modelled
like simLoop: surviving list plus ghost trace of disposed projectiles. -/
def physLoop (dt : K) :
    List (Projectile K) → List (Projectile K) × List (Projectile K)
  | [] => ([], [])
  | o :: rest =>
    let p := physLoop dt rest
    let u := Projectile.update o dt
    if u.2 = "remove" then (p.1, u.1.dispose :: p.2)
    else (u.1 :: p.1, p.2)

/-- PhysicsSimulation.update. -/
def PhysicsSimulation.update (s : PhysicsSimulation K) (deltaTime : K) :
    PhysicsSimulation K × List (Projectile K) :=
  let scaledDt := deltaTime * s.timeScale
  let r := physLoop scaledDt s.projectiles
  ({ s with projectiles := r.1 }, r.2)

/-- A concrete transcendental kernel instance used by witnesses (the
witnesses below only exercise code paths that never consult it). -/
def jfun : ℚ → ℚ := fun _ => 0


/- ============== concrete inputs used by witnesses and counterexamples ============== -/

/-- C4 counterexample input: a mid-flight entity that bounces into the
stopping sub-case while its elapsed clock reads 5. -/
def c4entity : MotionObject ℚ :=
  { (mkMotionObject ⟨0, 0, 0⟩ { vy := -(1 / 20) } : MotionObject ℚ) with
      elapsedTime := 5, isLaunched := true, status := "active" }

/-- C4 witness: a non-stopping bounce, restitution 7/10, impact speed 1. -/
def c4entityW : MotionObject ℚ :=
  { (mkMotionObject ⟨2, -1, 3⟩ { vy := -1 } : MotionObject ℚ) with
      isLaunched := true, status := "active", elapsedTime := 3 }

/-- C1 counterexample input: spawn at height 1 with downward velocity 1. -/
def c1entity : MotionObject ℚ := mkMotionObject ⟨0, 1, 0⟩ { vy := -1 }

/-- C1 counterexample run: launch, then one 2 second frame, which crosses
the ground and re-bases the snapshot at the bounce. -/
def c1afterBounce : MotionObject ℚ :=
  (MotionObject.update jfun jfun jfun c1entity.launch 2).1

/-- C1 witness input: an in-flight entity at the moment of a non-stopping
ground contact. -/
def c1entityW : MotionObject ℚ :=
  { (mkMotionObject ⟨5, -2, 0⟩ { vx := 1, vy := -2 } : MotionObject ℚ) with
      isLaunched := true, status := "active", elapsedTime := 4 }

/-- C3 counterexample input: a linear MotionObject one second into flight. -/
def c3entity : MotionObject ℚ :=
  (MotionObject.update jfun jfun jfun
    (mkMotionObject ⟨0, 5, 0⟩ { vx := 1 } : MotionObject ℚ).launch 1).1

/-- C3 witness input: a launched projectile. -/
def c3proj : Projectile ℚ :=
  Projectile.launch jfun jfun (mkProjectile ⟨0, 0, 0⟩ {})

/-- C8 witness input: a landed projectile half a second into the fade. -/
def c8proj : Projectile ℚ :=
  { (mkProjectile ⟨0, 0, 0⟩ {} : Projectile ℚ) with
      isLaunched := true, hasLanded := true, landedTimer := 1 / 2 }

/-- C5 witness inputs: a kinematics orchestrator holding one entity flagged
remove (evicted) and one idle entity (kept), and a physics orchestrator
holding one projectile past its landing countdown (evicted). -/
def c5motA : MotionObject ℚ :=
  { (mkMotionObject ⟨0, 0, 0⟩ {} : MotionObject ℚ) with status := "remove" }

def c5motB : MotionObject ℚ := mkMotionObject ⟨1, 2, 3⟩ {}

def c5ksim : KinematicsSimulation ℚ := ⟨[c5motA, c5motB], 1⟩

def c5projA : Projectile ℚ :=
  { (mkProjectile ⟨0, 0, 0⟩ {} : Projectile ℚ) with
      isLaunched := true, hasLanded := true, landedTimer := 3 }

def c5psim : PhysicsSimulation ℚ := ⟨[c5projA], 1⟩


/-- Partial elapsed-time sums: the clock values observed after each update
of a run, starting from clock t0. -/
def sumsFrom (t0 : K) : List K → List K
  | [] => []
  | d :: ds => (t0 + d) :: sumsFrom (t0 + d) ds

/-- Invariant of an in-flight linear-mode drag-free entity: launched,
active, snapshot (p0, u), constant velocity u, and the position given
analytically by the snapshot and the elapsed time. -/
def LinInv (e : MotionObject K) (p0 u : Vec3 K) : Prop :=
  e.isLaunched = true ∧ e.isStopped = false ∧ e.motionType = "linear" ∧
  e.dragMode = "none" ∧ e.initialPosition = p0 ∧ e.initialVelocity = u ∧
  e.velocity = u ∧
  e.position = ⟨p0.x + u.x * e.elapsedTime, p0.y + u.y * e.elapsedTime,
                p0.z + u.z * e.elapsedTime⟩

def c6entity : MotionObject ℚ := mkMotionObject ⟨0, 5, 0⟩ { vx := 1 }


/-- Override only the motionType tag of an entity (used to compare the
behaviour of an invalid tag against the linear fallback). -/
def setMT (m : String) (e : MotionObject K) : MotionObject K :=
  { e with motionType := m }

def c7entity : MotionObject ℚ :=
  { (mkMotionObject ⟨0, 3, 0⟩ { vx := 2, vy := 1 } : MotionObject ℚ) with
      motionType := "bogus", isLaunched := true, status := "active" }


/-- Analytic consistency of an in-flight entity: its position (and, where
the mode recomputes it, velocity) agree with the closed-form values the
mode update would produce at its current elapsedTime.  This holds for any
entity that has only been launched and updated; external mid-flight
reconfiguration can break it. -/
def ConsistentAt (kcos ksin : K → K) (e : MotionObject K) : Prop :=
  match e.motionType with
  | "accelerated" =>
      e.dragMode = "none" →
        e.position = ⟨e.initialPosition.x + e.initialVelocity.x * e.elapsedTime
              + 1 / 2 * e.acceleration.x * e.elapsedTime * e.elapsedTime,
            e.initialPosition.y + e.initialVelocity.y * e.elapsedTime
              + 1 / 2 * e.acceleration.y * e.elapsedTime * e.elapsedTime,
            e.initialPosition.z + e.initialVelocity.z * e.elapsedTime
              + 1 / 2 * e.acceleration.z * e.elapsedTime * e.elapsedTime⟩ ∧
        e.velocity = ⟨e.initialVelocity.x + e.acceleration.x * e.elapsedTime,
            e.initialVelocity.y + e.acceleration.y * e.elapsedTime,
            e.initialVelocity.z + e.acceleration.z * e.elapsedTime⟩
  | "freefall" =>
      e.dragMode = "none" →
        e.position = ⟨e.initialPosition.x,
            e.initialPosition.y
              - 1 / 2 * e.gravity * e.elapsedTime * e.elapsedTime,
            e.initialPosition.z⟩ ∧
        e.velocity.y = -e.gravity * e.elapsedTime
  | "projectile" =>
      e.dragMode = "none" →
        e.position = ⟨e.initialPosition.x + e.initialVelocity.x * e.elapsedTime,
            e.initialPosition.y + e.initialVelocity.y * e.elapsedTime
              - 1 / 2 * e.gravity * e.elapsedTime * e.elapsedTime,
            e.initialPosition.z + e.initialVelocity.z * e.elapsedTime⟩ ∧
        e.velocity = ⟨e.initialVelocity.x,
            e.initialVelocity.y - e.gravity * e.elapsedTime,
            e.initialVelocity.z⟩
  | "circular" =>
      e.position = ⟨e.circularCenter.x + e.circularRadius
            * kcos ((if e.circularClockwise = true then -1 else 1)
                * e.angularVelocity * e.elapsedTime),
          e.circularCenter.y,
          e.circularCenter.z + e.circularRadius
            * ksin ((if e.circularClockwise = true then -1 else 1)
                * e.angularVelocity * e.elapsedTime)⟩ ∧
      e.velocity = ⟨-e.circularRadius * e.angularVelocity
            * ksin ((if e.circularClockwise = true then -1 else 1)
                * e.angularVelocity * e.elapsedTime)
            * (if e.circularClockwise = true then -1 else 1),
          0,
          e.circularRadius * e.angularVelocity
            * kcos ((if e.circularClockwise = true then -1 else 1)
                * e.angularVelocity * e.elapsedTime)
            * (if e.circularClockwise = true then -1 else 1)⟩
  | "relative" => True
  | _ =>
      e.dragMode = "none" →
        e.position = ⟨e.initialPosition.x + e.initialVelocity.x * e.elapsedTime,
            e.initialPosition.y + e.initialVelocity.y * e.elapsedTime,
            e.initialPosition.z + e.initialVelocity.z * e.elapsedTime⟩

/-- Safety condition under which a frozen (dt = 0) update provably changes
nothing observable: the entity is not externally flagged for removal, and,
if in flight, it is analytically consistent and not sitting in the
ground-contact trigger (unless its mode skips the ground test). -/
def FreezeSafe (kcos ksin : K → K) (e : MotionObject K) : Prop :=
  e.status ≠ "remove" ∧
  (e.isLaunched = true → e.isStopped = false →
    ConsistentAt kcos ksin e ∧
    (e.motionType = "circular" ∨
     (e.motionType = "relative" ∧ e.viewInWorldFrame = false) ∨
     0 < e.position.y ∨ 0 ≤ e.velocity.y))

/-- C2 witness input: a launched linear entity well above the ground held
by a frozen orchestrator. -/
def c2sim : KinematicsSimulation ℚ :=
  ⟨[(mkMotionObject ⟨0, 5, 0⟩ { vx := 1 } : MotionObject ℚ).launch], 0⟩

/-- C2 counterexample input: an entity configured at ground level with a
downward velocity, then launched; held by an orchestrator frozen at
timeScale 0. -/
def c2simCex : KinematicsSimulation ℚ :=
  ⟨[(mkMotionObject ⟨0, 0, 0⟩ { vy := -1 } : MotionObject ℚ).launch], 0⟩

/- ================= helper lemmas on the ground resolver ================= -/

theorem hgc_not_triggered (e : MotionObject K)
    (h : ¬(e.position.y ≤ 0 ∧ e.velocity.y < 0)) :
    e.handleGroundCollision = e := by
  unfold MotionObject.handleGroundCollision
  rw [if_neg h]

theorem hgc_bounce_nostop (e : MotionObject K)
    (hy : e.position.y ≤ 0) (hv : e.velocity.y < 0)
    (hb : e.bounceEnabled = true) (hr : 0 < e.restitution)
    (hth : e.bounceThreshold ≤ |(-e.restitution * e.velocity.y)|) :
    e.handleGroundCollision =
      { e with position := ⟨e.position.x, 0, e.position.z⟩,
               velocity := ⟨e.velocity.x, -e.restitution * e.velocity.y,
                            e.velocity.z⟩,
               initialPosition := ⟨e.position.x, 0, e.position.z⟩,
               initialVelocity := ⟨e.velocity.x,
                                   -e.restitution * e.velocity.y,
                                   e.velocity.z⟩,
               elapsedTime := 0 } := by
  unfold MotionObject.handleGroundCollision
  rw [if_pos ⟨hy, hv⟩]
  dsimp only
  rw [if_pos ⟨hb, hr⟩, if_neg (not_lt.mpr hth)]

theorem hgc_bounce_stop (e : MotionObject K)
    (hy : e.position.y ≤ 0) (hv : e.velocity.y < 0)
    (hb : e.bounceEnabled = true) (hr : 0 < e.restitution)
    (hth : |(-e.restitution * e.velocity.y)| < e.bounceThreshold) :
    e.handleGroundCollision =
      { e with position := ⟨e.position.x, 0, e.position.z⟩,
               velocity := ⟨e.velocity.x, 0, e.velocity.z⟩,
               isStopped := true, status := "stopped",
               initialPosition := ⟨e.position.x, 0, e.position.z⟩,
               initialVelocity := ⟨e.velocity.x, 0, e.velocity.z⟩,
               elapsedTime := 0 } := by
  unfold MotionObject.handleGroundCollision
  rw [if_pos ⟨hy, hv⟩]
  dsimp only
  rw [if_pos ⟨hb, hr⟩, if_pos hth]

theorem hgc_nobounce (e : MotionObject K)
    (hy : e.position.y ≤ 0) (hv : e.velocity.y < 0)
    (hnb : ¬(e.bounceEnabled = true ∧ 0 < e.restitution)) :
    e.handleGroundCollision =
      { e with position := ⟨e.position.x, 0, e.position.z⟩,
               velocity := ⟨e.velocity.x, 0, e.velocity.z⟩,
               isStopped := true, status := "stopped" } := by
  unfold MotionObject.handleGroundCollision
  rw [if_pos ⟨hy, hv⟩]
  dsimp only
  rw [if_neg hnb]

/- ============================ claim C10 ============================ -/

/-- C10: whenever the ground-contact resolver fires (position.y at most 0
and velocity.y negative), it modifies only the y components: position.x,
position.z, velocity.x and velocity.z are exactly preserved across the
bounce. -/
theorem c10_ground_contact_preserves_horizontal (e : MotionObject K)
    (hy : e.position.y ≤ 0) (hv : e.velocity.y < 0) :
    e.handleGroundCollision.position.x = e.position.x ∧
    e.handleGroundCollision.position.z = e.position.z ∧
    e.handleGroundCollision.velocity.x = e.velocity.x ∧
    e.handleGroundCollision.velocity.z = e.velocity.z := by
  unfold MotionObject.handleGroundCollision
  rw [if_pos ⟨hy, hv⟩]
  dsimp only
  split_ifs <;> exact ⟨rfl, rfl, rfl, rfl⟩

/-- C10 witness: a concrete triggering entity. -/
theorem c10_witness :
    ((mkMotionObject (⟨1, 0, 2⟩ : Vec3 ℚ)
        { vx := 3, vy := -1, vz := 4 }).position.y ≤ 0 ∧
      (mkMotionObject (⟨1, 0, 2⟩ : Vec3 ℚ)
        { vx := 3, vy := -1, vz := 4 }).velocity.y < 0) ∧
    ((mkMotionObject (⟨1, 0, 2⟩ : Vec3 ℚ)
        { vx := 3, vy := -1, vz := 4 }).handleGroundCollision.position.x
      = (mkMotionObject (⟨1, 0, 2⟩ : Vec3 ℚ)
        { vx := 3, vy := -1, vz := 4 }).position.x) :=
  ⟨⟨by norm_num [mkMotionObject], by norm_num [mkMotionObject]⟩,
    (c10_ground_contact_preserves_horizontal _
      (by norm_num [mkMotionObject]) (by norm_num [mkMotionObject])).1⟩

/- ============================ claim C4 ============================ -/

/-- C4 (amended): on trigger the resolver clamps position.y to 0; with
bounce enabled and positive restitution it reflects velocity.y by minus
restitution, stops (zeroing velocity.y) when the reflected speed is below
bounceThreshold, and in BOTH sub-cases (stopping or not) re-snapshots
initialPosition and initialVelocity to the current state and resets
elapsedTime to 0; with bounce disabled or restitution 0 it zeroes
velocity.y and stops without re-snapshotting. -/
theorem c4_ground_collision_characterisation (e : MotionObject K)
    (hy : e.position.y ≤ 0) (hv : e.velocity.y < 0) :
    (e.bounceEnabled = true ∧ 0 < e.restitution →
      (|(-e.restitution * e.velocity.y)| < e.bounceThreshold →
        e.handleGroundCollision =
          { e with position := ⟨e.position.x, 0, e.position.z⟩,
                   velocity := ⟨e.velocity.x, 0, e.velocity.z⟩,
                   isStopped := true, status := "stopped",
                   initialPosition := ⟨e.position.x, 0, e.position.z⟩,
                   initialVelocity := ⟨e.velocity.x, 0, e.velocity.z⟩,
                   elapsedTime := 0 }) ∧
      (e.bounceThreshold ≤ |(-e.restitution * e.velocity.y)| →
        e.handleGroundCollision =
          { e with position := ⟨e.position.x, 0, e.position.z⟩,
                   velocity := ⟨e.velocity.x, -e.restitution * e.velocity.y,
                                e.velocity.z⟩,
                   initialPosition := ⟨e.position.x, 0, e.position.z⟩,
                   initialVelocity := ⟨e.velocity.x,
                                       -e.restitution * e.velocity.y,
                                       e.velocity.z⟩,
                   elapsedTime := 0 })) ∧
    (¬(e.bounceEnabled = true ∧ 0 < e.restitution) →
      e.handleGroundCollision =
        { e with position := ⟨e.position.x, 0, e.position.z⟩,
                 velocity := ⟨e.velocity.x, 0, e.velocity.z⟩,
                 isStopped := true, status := "stopped" }) := by
  refine ⟨fun hb => ⟨fun hlt => ?_, fun hge => ?_⟩, fun hnb => ?_⟩
  · exact hgc_bounce_stop e hy hv hb.1 hb.2 hlt
  · exact hgc_bounce_nostop e hy hv hb.1 hb.2 hge
  · exact hgc_nobounce e hy hv hnb

/-- C4 counterexample: the claim asserts the re-snapshot and elapsedTime
reset happen ONLY in the non-stopping sub-case, but on this stopping bounce
(reflected speed 7/200 below the threshold 1/10) the code still resets
elapsedTime from 5 to 0 and re-snapshots the initial conditions. -/
theorem c4_counterexample :
    c4entity.elapsedTime = 5 ∧
    c4entity.handleGroundCollision.status = "stopped" ∧
    c4entity.handleGroundCollision.elapsedTime = 0 ∧
    c4entity.handleGroundCollision.initialVelocity.y = 0 ∧
    c4entity.handleGroundCollision.initialPosition = c4entity.position := by
  norm_num [c4entity, mkMotionObject, MotionObject.handleGroundCollision,
    abs_of_nonneg, abs_of_nonpos]

/-- C4 witness: the characterisation applied at a concrete bounce. -/
theorem c4_witness :
    (c4entityW.position.y ≤ 0 ∧ c4entityW.velocity.y < 0 ∧
      c4entityW.bounceEnabled = true ∧ 0 < c4entityW.restitution ∧
      c4entityW.bounceThreshold ≤ |(-c4entityW.restitution * c4entityW.velocity.y)|) ∧
    c4entityW.handleGroundCollision =
      { c4entityW with
          position := ⟨c4entityW.position.x, 0, c4entityW.position.z⟩,
          velocity := ⟨c4entityW.velocity.x,
                       -c4entityW.restitution * c4entityW.velocity.y,
                       c4entityW.velocity.z⟩,
          initialPosition := ⟨c4entityW.position.x, 0, c4entityW.position.z⟩,
          initialVelocity := ⟨c4entityW.velocity.x,
                              -c4entityW.restitution * c4entityW.velocity.y,
                              c4entityW.velocity.z⟩,
          elapsedTime := 0 } :=
  ⟨⟨by norm_num [c4entityW, mkMotionObject],
    by norm_num [c4entityW, mkMotionObject],
    by norm_num [c4entityW, mkMotionObject],
    by norm_num [c4entityW, mkMotionObject],
    by norm_num [c4entityW, mkMotionObject, abs_of_nonneg]⟩,
   ((c4_ground_collision_characterisation c4entityW
        (by norm_num [c4entityW, mkMotionObject])
        (by norm_num [c4entityW, mkMotionObject])).1
      ⟨by norm_num [c4entityW, mkMotionObject],
       by norm_num [c4entityW, mkMotionObject]⟩).2
    (by norm_num [c4entityW, mkMotionObject, abs_of_nonneg])⟩

/- ============================ claim C1 ============================ -/

/-- C1 (amended): reset returns a bounced entity to idle with position and
velocity restored from the CURRENT initial-condition snapshot, which after a
bounce re-basing is the bounce-rebased state (ground-clamped position,
reflected velocity), not the original spawn state. -/
theorem c1_reset_restores_rebased_snapshot (e : MotionObject K)
    (hy : e.position.y ≤ 0) (hv : e.velocity.y < 0)
    (hb : e.bounceEnabled = true) (hr : 0 < e.restitution)
    (hth : e.bounceThreshold ≤ |(-e.restitution * e.velocity.y)|) :
    e.handleGroundCollision.reset.status = "idle" ∧
    e.handleGroundCollision.reset.isLaunched = false ∧
    e.handleGroundCollision.reset.elapsedTime = 0 ∧
    e.handleGroundCollision.reset.position = ⟨e.position.x, 0, e.position.z⟩ ∧
    e.handleGroundCollision.reset.velocity
      = ⟨e.velocity.x, -e.restitution * e.velocity.y, e.velocity.z⟩ := by
  rw [hgc_bounce_nostop e hy hv hb hr hth]
  unfold MotionObject.reset
  exact ⟨rfl, rfl, rfl, rfl, rfl⟩

/-- C1 counterexample: after the bounce re-basing, reset does reach idle
but restores the bounce-rebased state (position y 0, velocity y 7/10), not
the true original spawn state (position y 1, velocity y -1) recorded at
launch, contradicting the claim. -/
theorem c1_counterexample :
    c1afterBounce.reset.status = "idle" ∧
    c1afterBounce.reset.position ≠ c1entity.launch.initialPosition ∧
    c1afterBounce.reset.velocity ≠ c1entity.launch.initialVelocity ∧
    c1afterBounce.reset.position.y = 0 ∧
    c1entity.launch.initialPosition.y = 1 := by
  norm_num +decide [c1afterBounce, c1entity, jfun, mkMotionObject,
    MotionObject.launch, MotionObject.update, MotionObject.updateLinear,
    MotionObject.applyDrag, MotionObject.handleGroundCollision,
    MotionObject.updateTrail, MotionObject.computeStats, MotionObject.reset,
    vlen, abs_of_nonneg, abs_of_nonpos, Vec3.ext_iff]

/-- C1 witness: the amended theorem applied at a concrete bounce. -/
theorem c1_witness :
    (c1entityW.position.y ≤ 0 ∧ c1entityW.velocity.y < 0 ∧
      c1entityW.bounceEnabled = true ∧ 0 < c1entityW.restitution ∧
      c1entityW.bounceThreshold
        ≤ |(-c1entityW.restitution * c1entityW.velocity.y)|) ∧
    (c1entityW.handleGroundCollision.reset.status = "idle" ∧
      c1entityW.handleGroundCollision.reset.position
        = ⟨c1entityW.position.x, 0, c1entityW.position.z⟩) :=
  ⟨⟨by norm_num [c1entityW, mkMotionObject],
    by norm_num [c1entityW, mkMotionObject],
    by norm_num [c1entityW, mkMotionObject],
    by norm_num [c1entityW, mkMotionObject],
    by norm_num [c1entityW, mkMotionObject, abs_of_nonneg]⟩,
   by
    have h := c1_reset_restores_rebased_snapshot c1entityW
      (by norm_num [c1entityW, mkMotionObject])
      (by norm_num [c1entityW, mkMotionObject])
      (by norm_num [c1entityW, mkMotionObject])
      (by norm_num [c1entityW, mkMotionObject])
      (by norm_num [c1entityW, mkMotionObject, abs_of_nonneg])
    exact ⟨h.1, h.2.2.2.1⟩⟩

/- ============================ claim C3 ============================ -/

/-- C3 (amended): Projectile.launch is idempotent-guarded: calling it on an
already launched projectile changes nothing.  (MotionObject.launch has no
such guard; see the counterexample.) -/
theorem c3_projectile_launch_idempotent (cosd sind : K → K)
    (p : Projectile K) (h : p.isLaunched = true) :
    Projectile.launch cosd sind p = p := by
  unfold Projectile.launch
  rw [if_pos h]

/-- C3 counterexample: MotionObject.launch is NOT guarded: calling launch on
this already launched mid-flight entity resets elapsedTime from 1 to 0 and
re-snapshots initialPosition to the current position, an observable change,
contradicting the claim for MotionEntity.launch. -/
theorem c3_counterexample :
    c3entity.isLaunched = true ∧
    c3entity.launch.elapsedTime ≠ c3entity.elapsedTime ∧
    c3entity.launch.initialPosition ≠ c3entity.initialPosition := by
  norm_num +decide [c3entity, jfun, mkMotionObject, MotionObject.launch,
    MotionObject.update, MotionObject.updateLinear, MotionObject.applyDrag,
    MotionObject.handleGroundCollision, MotionObject.updateTrail,
    MotionObject.computeStats, vlen, Vec3.ext_iff]

/-- C3 witness: relaunching the launched projectile is a no-op. -/
theorem c3_witness :
    c3proj.isLaunched = true ∧ Projectile.launch jfun jfun c3proj = c3proj :=
  ⟨rfl, c3_projectile_launch_idempotent jfun jfun c3proj rfl⟩

/- ============================ claim C8 ============================ -/

/-- C8: once a launched projectile has landed, each update accumulates dt
into the landing countdown; below 2.0 seconds it returns landed and sets
opacity to max 0 (1 - landedTime / 2), at or beyond 2.0 seconds it returns
remove; and update never returns remove otherwise. -/
theorem c8_landed_fade_and_removal (p : Projectile K) (dt : K)
    (hl : p.isLaunched = true) :
    (p.hasLanded = true →
      (p.update dt).1.landedTimer = p.landedTimer + dt ∧
      (p.landedTimer + dt < 2 →
        (p.update dt).2 = "landed" ∧
        (p.update dt).1.opacity = max 0 (1 - (p.landedTimer + dt) / 2)) ∧
      (2 ≤ p.landedTimer + dt → (p.update dt).2 = "remove")) ∧
    ((p.update dt).2 = "remove" → p.hasLanded = true ∧ 2 ≤ p.landedTimer + dt) := by
  unfold Projectile.update
  rw [if_neg (by simp [hl])]
  by_cases hLand : p.hasLanded = true
  · rw [if_pos hLand]
    dsimp only
    constructor
    · intro _
      refine ⟨?_, fun hlt => ?_, fun hge => ?_⟩
      · split_ifs <;> rfl
      · rw [if_neg (not_le.mpr hlt)]
        exact ⟨rfl, rfl⟩
      · rw [if_pos hge]
    · intro hrem
      refine ⟨hLand, ?_⟩
      by_contra hno
      rw [if_neg (by exact fun h => hno h)] at hrem
      simp at hrem
  · rw [if_neg hLand]
    dsimp only
    constructor
    · intro h
      exact absurd h hLand
    · intro hrem
      exfalso
      split_ifs at hrem <;> simp at hrem

/-- C8 witness: one more second of fade leaves the countdown below 2, so
update returns landed with opacity 1/4. -/
theorem c8_witness :
    (c8proj.isLaunched = true ∧ c8proj.hasLanded = true ∧
      c8proj.landedTimer + 1 < 2) ∧
    ((c8proj.update 1).2 = "landed" ∧ (c8proj.update 1).1.opacity = 1 / 4) := by
  have h := (c8_landed_fade_and_removal c8proj 1 rfl).1 rfl
  have h2 := h.2.1 (by norm_num [c8proj, mkProjectile])
  refine ⟨⟨rfl, rfl, by norm_num [c8proj, mkProjectile]⟩, h2.1, ?_⟩
  rw [h2.2]
  norm_num [c8proj, mkProjectile]

/- ============================ claim C9 ============================ -/

theorem previewAux_length_le (kcos ksin : K → K) (e : MotionObject K) :
    ∀ r i, (MotionObject.previewAux kcos ksin e r i).length ≤ r := by
  intro r
  induction r with
  | zero => intro i; simp [MotionObject.previewAux]
  | succ n ih =>
      intro i
      unfold MotionObject.previewAux
      dsimp only
      split_ifs <;> simp <;> exact ih (i + 1)

/-- C9: computePreviewPoints returns at most numPoints sampled positions;
the source method writes no instance field, hence it is embedded as a pure
function of the entity state and cannot alter elapsedTime, position, or any
other live state. -/
theorem c9_preview_at_most_n_points (kcos ksin : K → K) (e : MotionObject K)
    (numPoints : Nat) :
    (e.computePreviewPoints kcos ksin numPoints).length ≤ numPoints :=
  previewAux_length_le kcos ksin e numPoints 0

/- ============================ claim C5 ============================ -/

theorem applyDrag_disposeCalls (ksqrt : K → K) (e : MotionObject K) (dt : K) :
    (e.applyDrag ksqrt dt).disposeCalls = e.disposeCalls := by
  unfold MotionObject.applyDrag
  dsimp only
  split_ifs <;> rfl

theorem hgc_disposeCalls (e : MotionObject K) :
    e.handleGroundCollision.disposeCalls = e.disposeCalls := by
  unfold MotionObject.handleGroundCollision
  dsimp only
  split_ifs <;> rfl

theorem updateTrail_disposeCalls (e : MotionObject K) :
    e.updateTrail.disposeCalls = e.disposeCalls := by
  unfold MotionObject.updateTrail
  dsimp only

theorem computeStats_disposeCalls (ksqrt : K → K) (e : MotionObject K) :
    (e.computeStats ksqrt).disposeCalls = e.disposeCalls := by
  unfold MotionObject.computeStats
  dsimp only

theorem updateLinear_disposeCalls (ksqrt : K → K) (e : MotionObject K) (dt : K) :
    (e.updateLinear ksqrt dt).disposeCalls = e.disposeCalls := by
  unfold MotionObject.updateLinear
  dsimp only
  rw [hgc_disposeCalls]
  split_ifs <;> exact applyDrag_disposeCalls ksqrt e dt

theorem updateAccelerated_disposeCalls (ksqrt : K → K) (e : MotionObject K) (dt : K) :
    (e.updateAccelerated ksqrt dt).disposeCalls = e.disposeCalls := by
  unfold MotionObject.updateAccelerated
  dsimp only
  rw [hgc_disposeCalls]
  split_ifs <;> exact applyDrag_disposeCalls ksqrt e dt

theorem updateFreefall_disposeCalls (ksqrt : K → K) (e : MotionObject K) (dt : K) :
    (e.updateFreefall ksqrt dt).disposeCalls = e.disposeCalls := by
  unfold MotionObject.updateFreefall
  dsimp only
  rw [hgc_disposeCalls]
  split_ifs <;> exact applyDrag_disposeCalls ksqrt e dt

theorem updateProjectile_disposeCalls (ksqrt : K → K) (e : MotionObject K) (dt : K) :
    (e.updateProjectile ksqrt dt).disposeCalls = e.disposeCalls := by
  unfold MotionObject.updateProjectile
  dsimp only
  rw [hgc_disposeCalls]
  split_ifs <;> exact applyDrag_disposeCalls ksqrt e dt

theorem updateCircular_disposeCalls (kcos ksin : K → K) (e : MotionObject K) (dt : K) :
    (e.updateCircular kcos ksin dt).disposeCalls = e.disposeCalls := by
  unfold MotionObject.updateCircular
  rfl

theorem updateRelative_disposeCalls (ksqrt : K → K) (e : MotionObject K) (dt : K) :
    (e.updateRelative ksqrt dt).disposeCalls = e.disposeCalls := by
  unfold MotionObject.updateRelative
  dsimp only
  split_ifs
  · exact applyDrag_disposeCalls ksqrt e dt
  · rw [hgc_disposeCalls]
    exact applyDrag_disposeCalls ksqrt e dt

theorem update_fst_disposeCalls (kcos ksin ksqrt : K → K) (e : MotionObject K)
    (dt : K) :
    (MotionObject.update kcos ksin ksqrt e dt).1.disposeCalls = e.disposeCalls := by
  unfold MotionObject.update
  split
  · rfl
  · dsimp only
    rw [computeStats_disposeCalls, updateTrail_disposeCalls]
    split <;>
      simp only [updateLinear_disposeCalls, updateAccelerated_disposeCalls,
        updateFreefall_disposeCalls, updateProjectile_disposeCalls,
        updateCircular_disposeCalls, updateRelative_disposeCalls]

theorem simLoop_safety (kcos ksin ksqrt : K → K) (dt : K) :
    ∀ l : List (MotionObject K), (∀ o ∈ l, o.disposeCalls = 0) →
    (simLoop kcos ksin ksqrt dt l).1.length
        + (simLoop kcos ksin ksqrt dt l).2.length = l.length ∧
    (simLoop kcos ksin ksqrt dt l).2.length
      = l.countP
          (fun o => decide ((MotionObject.update kcos ksin ksqrt o dt).2 = "remove")) ∧
    (∀ d ∈ (simLoop kcos ksin ksqrt dt l).2, d.disposeCalls = 1) ∧
    (∀ o ∈ (simLoop kcos ksin ksqrt dt l).1, o.disposeCalls = 0) := by
  intro l
  induction l with
  | nil => intro _; simp [simLoop]
  | cons o rest ih =>
      intro h0
      obtain ⟨ihA, ihB, ihC, ihD⟩ := ih (fun x hx => h0 x (List.mem_cons_of_mem _ hx))
      have hoz : o.disposeCalls = 0 := h0 o (List.mem_cons_self _ _)
      unfold simLoop
      dsimp only
      by_cases hrem : (MotionObject.update kcos ksin ksqrt o dt).2 = "remove"
      · rw [if_pos hrem]
        refine ⟨?_, ?_, ?_, ihD⟩
        · simp only [List.length_cons]
          omega
        · simp [List.countP_cons, hrem, ihB]
        · intro d hd
          rcases List.mem_cons.mp hd with h | h
          · subst h
            unfold MotionObject.dispose
            dsimp only
            rw [update_fst_disposeCalls, hoz]
          · exact ihC d h
      · rw [if_neg hrem]
        refine ⟨?_, ?_, ihC, ?_⟩
        · simp only [List.length_cons]
          omega
        · simp [List.countP_cons, hrem, ihB]
        · intro x hx
          rcases List.mem_cons.mp hx with h | h
          · subst h
            rw [update_fst_disposeCalls, hoz]
          · exact ihD x h

theorem projectile_update_fst_disposeCalls (p : Projectile K) (dt : K) :
    (p.update dt).1.disposeCalls = p.disposeCalls := by
  unfold Projectile.update
  dsimp only
  split_ifs <;> rfl

theorem physLoop_safety (dt : K) :
    ∀ l : List (Projectile K), (∀ q ∈ l, q.disposeCalls = 0) →
    (physLoop dt l).1.length + (physLoop dt l).2.length = l.length ∧
    (physLoop dt l).2.length
      = l.countP (fun q => decide ((Projectile.update q dt).2 = "remove")) ∧
    (∀ d ∈ (physLoop dt l).2, d.disposeCalls = 1) ∧
    (∀ q ∈ (physLoop dt l).1, q.disposeCalls = 0) := by
  intro l
  induction l with
  | nil => intro _; simp [physLoop]
  | cons o rest ih =>
      intro h0
      obtain ⟨ihA, ihB, ihC, ihD⟩ := ih (fun x hx => h0 x (List.mem_cons_of_mem _ hx))
      have hoz : o.disposeCalls = 0 := h0 o (List.mem_cons_self _ _)
      unfold physLoop
      dsimp only
      by_cases hrem : (Projectile.update o dt).2 = "remove"
      · rw [if_pos hrem]
        refine ⟨?_, ?_, ?_, ihD⟩
        · simp only [List.length_cons]
          omega
        · simp [List.countP_cons, hrem, ihB]
        · intro d hd
          rcases List.mem_cons.mp hd with h | h
          · subst h
            unfold Projectile.dispose
            dsimp only
            rw [projectile_update_fst_disposeCalls, hoz]
          · exact ihC d h
      · rw [if_neg hrem]
        refine ⟨?_, ?_, ihC, ?_⟩
        · simp only [List.length_cons]
          omega
        · simp [List.countP_cons, hrem, ihB]
        · intro x hx
          rcases List.mem_cons.mp hx with h | h
          · subst h
            rw [projectile_update_fst_disposeCalls, hoz]
          · exact ihD x h

/-- C5: given entities all starting with zero dispose count, one
orchestrator update leaves exactly N minus the number of entities whose
update returned remove in the collection, each evicted entity has had
dispose called on it exactly once (ghost count 1), and no surviving entity
has been disposed.  Stated for both orchestrators (KinematicsSimulation
over MotionObject and PhysicsSimulation over Projectile). -/
theorem c5_orchestrator_removal_safety (kcos ksin ksqrt : K → K)
    (s : KinematicsSimulation K) (t : PhysicsSimulation K) (dK dP : K)
    (h0 : ∀ o ∈ s.motionObjects, o.disposeCalls = 0)
    (h1 : ∀ q ∈ t.projectiles, q.disposeCalls = 0) :
    ((KinematicsSimulation.update kcos ksin ksqrt s dK).1.motionObjects.length
        = s.motionObjects.length
          - s.motionObjects.countP
              (fun o => decide
                ((MotionObject.update kcos ksin ksqrt o (dK * s.timeScale)).2
                  = "remove")) ∧
      (∀ d ∈ (KinematicsSimulation.update kcos ksin ksqrt s dK).2,
        d.disposeCalls = 1) ∧
      (∀ o ∈ (KinematicsSimulation.update kcos ksin ksqrt s dK).1.motionObjects,
        o.disposeCalls = 0)) ∧
    ((PhysicsSimulation.update t dP).1.projectiles.length
        = t.projectiles.length
          - t.projectiles.countP
              (fun q => decide
                ((Projectile.update q (dP * t.timeScale)).2 = "remove")) ∧
      (∀ d ∈ (PhysicsSimulation.update t dP).2, d.disposeCalls = 1) ∧
      (∀ q ∈ (PhysicsSimulation.update t dP).1.projectiles,
        q.disposeCalls = 0)) := by
  obtain ⟨hA, hB, hC, hD⟩ :=
    simLoop_safety kcos ksin ksqrt (dK * s.timeScale) s.motionObjects h0
  obtain ⟨pA, pB, pC, pD⟩ := physLoop_safety (dP * t.timeScale) t.projectiles h1
  unfold KinematicsSimulation.update PhysicsSimulation.update
  dsimp only
  exact ⟨⟨by omega, hC, hD⟩, ⟨by omega, pC, pD⟩⟩

/-- C5 witness: removal safety applied to the concrete orchestrators. -/
theorem c5_witness :
    (∀ o ∈ c5ksim.motionObjects, o.disposeCalls = 0) ∧
    (∀ q ∈ c5psim.projectiles, q.disposeCalls = 0) ∧
    ((KinematicsSimulation.update jfun jfun jfun c5ksim 1).1.motionObjects.length
        = c5ksim.motionObjects.length
          - c5ksim.motionObjects.countP
              (fun o => decide
                ((MotionObject.update jfun jfun jfun o (1 * c5ksim.timeScale)).2
                  = "remove"))) ∧
    (∀ d ∈ (PhysicsSimulation.update c5psim 1).2, d.disposeCalls = 1) := by
  have hk : ∀ o ∈ c5ksim.motionObjects, o.disposeCalls = 0 := by
    intro o ho
    rcases List.mem_cons.mp ho with h | h
    · subst h; rfl
    · rcases List.mem_cons.mp h with h2 | h2
      · subst h2; rfl
      · simp at h2
  have hp : ∀ q ∈ c5psim.projectiles, q.disposeCalls = 0 := by
    intro q hq
    rcases List.mem_cons.mp hq with h | h
    · subst h; rfl
    · simp at h
  have h := c5_orchestrator_removal_safety jfun jfun jfun c5ksim c5psim 1 1 hk hp
  exact ⟨hk, hp, h.1.1, h.2.2.1⟩


/- ============================ claim C6 ============================ -/

theorem launch_linear (e : MotionObject K) (hmt : e.motionType = "linear") :
    e.launch = { e with isLaunched := true, status := "active",
                        elapsedTime := 0, isStopped := false,
                        initialPosition := e.position,
                        initialVelocity := e.velocity } := by
  unfold MotionObject.launch
  dsimp only
  simp +decide [hmt]

theorem lin_step (kcos ksin ksqrt : K → K) (e : MotionObject K)
    (p0 u : Vec3 K) (d : K) (hInv : LinInv e p0 u)
    (hnc : ¬(p0.y + u.y * (e.elapsedTime + d) ≤ 0 ∧ u.y < 0)) :
    LinInv (MotionObject.update kcos ksin ksqrt e d).1 p0 u ∧
    (MotionObject.update kcos ksin ksqrt e d).1.elapsedTime
      = e.elapsedTime + d := by
  obtain ⟨hL, hS, hM, hD, hP0, hU, hV, hPos⟩ := hInv
  unfold MotionObject.update
  rw [if_neg (by simp [hL, hS])]
  dsimp only
  simp only [hM]
  unfold MotionObject.updateLinear MotionObject.applyDrag
  dsimp only
  rw [if_pos hD, if_pos hD]
  dsimp only
  rw [hgc_not_triggered _ (by
    dsimp only
    rw [hP0, hU, hV]
    exact hnc)]
  unfold MotionObject.updateTrail MotionObject.computeStats
  dsimp only
  exact ⟨⟨hL, hS, rfl, hD, hP0, hU, hV, by rw [hP0, hU]⟩, rfl⟩

theorem lin_run (kcos ksin ksqrt : K → K) :
    ∀ (ds : List K) (e : MotionObject K) (p0 u : Vec3 K), LinInv e p0 u →
    (∀ t ∈ sumsFrom e.elapsedTime ds, ¬(p0.y + u.y * t ≤ 0 ∧ u.y < 0)) →
    LinInv (MotionObject.updatesE kcos ksin ksqrt e ds) p0 u ∧
    (MotionObject.updatesE kcos ksin ksqrt e ds).elapsedTime
      = e.elapsedTime + ds.sum := by
  intro ds
  induction ds with
  | nil =>
      intro e p0 u hInv _
      exact ⟨hInv, by simp [MotionObject.updatesE]⟩
  | cons d rest ih =>
      intro e p0 u hInv hnc
      have hstep := lin_step kcos ksin ksqrt e p0 u d hInv
        (hnc _ (by simp [sumsFrom]))
      have hrest : ∀ t ∈ sumsFrom
          ((MotionObject.update kcos ksin ksqrt e d).1.elapsedTime) rest,
          ¬(p0.y + u.y * t ≤ 0 ∧ u.y < 0) := by
        rw [hstep.2]
        intro t ht
        exact hnc t (by simp [sumsFrom]; right; exact ht)
      obtain ⟨h1, h2⟩ := ih _ p0 u hstep.1 hrest
      refine ⟨by simpa [MotionObject.updatesE] using h1, ?_⟩
      have : (MotionObject.updatesE kcos ksin ksqrt e (d :: rest))
          = MotionObject.updatesE kcos ksin ksqrt
              (MotionObject.update kcos ksin ksqrt e d).1 rest := rfl
      rw [this, h2, hstep.2, List.sum_cons, add_assoc]

/-- C6: a freshly launched linear-mode entity with drag disabled, run
through any sequence of updates during which the ground trigger never
fires, sits exactly at initialPosition + initialVelocity * t (t the
accumulated elapsed time, computed analytically from the launch snapshot)
with its velocity unchanged from the snapshot. -/
theorem c6_linear_analytic_no_drag (kcos ksin ksqrt : K → K)
    (e0 : MotionObject K) (ds : List K)
    (hmt : e0.motionType = "linear") (hdm : e0.dragMode = "none")
    (hnc : ∀ t ∈ sumsFrom 0 ds,
      ¬(e0.position.y + e0.velocity.y * t ≤ 0 ∧ e0.velocity.y < 0)) :
    (MotionObject.updatesE kcos ksin ksqrt e0.launch ds).position
      = ⟨e0.position.x + e0.velocity.x * ds.sum,
         e0.position.y + e0.velocity.y * ds.sum,
         e0.position.z + e0.velocity.z * ds.sum⟩ ∧
    (MotionObject.updatesE kcos ksin ksqrt e0.launch ds).velocity
      = e0.velocity ∧
    (MotionObject.updatesE kcos ksin ksqrt e0.launch ds).elapsedTime = ds.sum ∧
    (MotionObject.updatesE kcos ksin ksqrt e0.launch ds).initialPosition
      = e0.position ∧
    (MotionObject.updatesE kcos ksin ksqrt e0.launch ds).initialVelocity
      = e0.velocity := by
  have hlaunch := launch_linear e0 hmt
  have hInv : LinInv e0.launch e0.position e0.velocity := by
    rw [hlaunch]
    refine ⟨rfl, rfl, hmt, hdm, rfl, rfl, rfl, ?_⟩
    dsimp only
    ext <;> simp
  have hE0 : e0.launch.elapsedTime = 0 := by rw [hlaunch]
  obtain ⟨hInvN, hEN⟩ := lin_run kcos ksin ksqrt ds e0.launch
    e0.position e0.velocity hInv (by rw [hE0]; exact hnc)
  obtain ⟨_, _, _, _, hP0, hU, hV, hPos⟩ := hInvN
  rw [hE0, zero_add] at hEN
  refine ⟨?_, hV, hEN, hP0, hU⟩
  rw [hPos, hEN]

/-- C6 witness: two frames of one second and half a second on a linear
entity spawned at height 5 moving along x. -/
theorem c6_witness :
    (c6entity.motionType = "linear" ∧ c6entity.dragMode = "none" ∧
      ∀ t ∈ sumsFrom (0 : ℚ) [1, 1 / 2],
        ¬(c6entity.position.y + c6entity.velocity.y * t ≤ 0 ∧
          c6entity.velocity.y < 0)) ∧
    (MotionObject.updatesE jfun jfun jfun c6entity.launch [1, 1 / 2]).position
      = ⟨c6entity.position.x + c6entity.velocity.x * ([1, (1 : ℚ) / 2].sum),
         c6entity.position.y + c6entity.velocity.y * ([1, (1 : ℚ) / 2].sum),
         c6entity.position.z + c6entity.velocity.z * ([1, (1 : ℚ) / 2].sum)⟩ ∧
    (MotionObject.updatesE jfun jfun jfun c6entity.launch [1, 1 / 2]).velocity
      = c6entity.velocity := by
  have hmt : c6entity.motionType = "linear" := rfl
  have hdm : c6entity.dragMode = "none" := rfl
  have hnc : ∀ t ∈ sumsFrom (0 : ℚ) [1, 1 / 2],
      ¬(c6entity.position.y + c6entity.velocity.y * t ≤ 0 ∧
        c6entity.velocity.y < 0) := by
    intro t _
    norm_num [c6entity, mkMotionObject]
  have h := c6_linear_analytic_no_drag jfun jfun jfun c6entity [1, 1 / 2]
    hmt hdm hnc
  exact ⟨⟨hmt, hdm, hnc⟩, h.1, h.2.1⟩


/- ============================ claim C7 ============================ -/

theorem applyDrag_setMT (ksqrt : K → K) (m : String) (e : MotionObject K) (dt : K) :
    MotionObject.applyDrag ksqrt (setMT m e) dt
      = setMT m (MotionObject.applyDrag ksqrt e dt) := by
  unfold MotionObject.applyDrag setMT
  dsimp only
  split_ifs <;> rfl

theorem hgc_setMT (m : String) (e : MotionObject K) :
    MotionObject.handleGroundCollision (setMT m e)
      = setMT m (MotionObject.handleGroundCollision e) := by
  unfold MotionObject.handleGroundCollision setMT
  dsimp only
  split_ifs <;> rfl

theorem updateTrail_setMT (m : String) (e : MotionObject K) :
    MotionObject.updateTrail (setMT m e)
      = setMT m (MotionObject.updateTrail e) := by
  unfold MotionObject.updateTrail setMT
  dsimp only

theorem updateLinear_setMT (ksqrt : K → K) (m : String) (e : MotionObject K)
    (dt : K) :
    MotionObject.updateLinear ksqrt (setMT m e) dt
      = setMT m (MotionObject.updateLinear ksqrt e dt) := by
  unfold MotionObject.updateLinear
  dsimp only
  rw [applyDrag_setMT]
  generalize MotionObject.applyDrag ksqrt e dt = A
  rw [show (setMT m A).dragMode = A.dragMode from rfl]
  split_ifs with hd
  · exact hgc_setMT m
      { A with position := ⟨A.initialPosition.x + A.initialVelocity.x * A.elapsedTime,
                            A.initialPosition.y + A.initialVelocity.y * A.elapsedTime,
                            A.initialPosition.z + A.initialVelocity.z * A.elapsedTime⟩ }
  · exact hgc_setMT m
      { A with position := ⟨A.position.x + A.velocity.x * dt,
                            A.position.y + A.velocity.y * dt,
                            A.position.z + A.velocity.z * dt⟩ }

theorem computeStats_setMT (ksqrt : K → K) (m : String) (e : MotionObject K)
    (hc : m ≠ "circular") (hf : m ≠ "freefall") (hp : m ≠ "projectile") :
    MotionObject.computeStats ksqrt (setMT m e)
      = setMT m (MotionObject.computeStats ksqrt (setMT "linear" e)) := by
  unfold MotionObject.computeStats setMT
  dsimp only
  split_ifs <;> simp_all +decide


theorem chain_setMT (ksqrt : K → K) (m : String) (B : MotionObject K) (dt : K)
    (hc : m ≠ "circular") (hf : m ≠ "freefall") (hp : m ≠ "projectile") :
    MotionObject.computeStats ksqrt
        (MotionObject.updateTrail
          { MotionObject.updateLinear ksqrt (setMT m B) dt with
              meshPos := (MotionObject.updateLinear ksqrt (setMT m B) dt).position })
      = setMT m (MotionObject.computeStats ksqrt
          (MotionObject.updateTrail
            { MotionObject.updateLinear ksqrt (setMT "linear" B) dt with
                meshPos := (MotionObject.updateLinear ksqrt (setMT "linear" B) dt).position })) := by
  rw [updateLinear_setMT ksqrt m B dt, updateLinear_setMT ksqrt "linear" B dt]
  calc MotionObject.computeStats ksqrt
        (MotionObject.updateTrail
          { setMT m (MotionObject.updateLinear ksqrt B dt) with
              meshPos := (setMT m (MotionObject.updateLinear ksqrt B dt)).position })
      = MotionObject.computeStats ksqrt
          (setMT m (MotionObject.updateTrail
            { MotionObject.updateLinear ksqrt B dt with
                meshPos := (MotionObject.updateLinear ksqrt B dt).position })) := by
        exact congrArg (MotionObject.computeStats ksqrt)
          (updateTrail_setMT m
            { MotionObject.updateLinear ksqrt B dt with
                meshPos := (MotionObject.updateLinear ksqrt B dt).position })
    _ = setMT m (MotionObject.computeStats ksqrt
          (setMT "linear" (MotionObject.updateTrail
            { MotionObject.updateLinear ksqrt B dt with
                meshPos := (MotionObject.updateLinear ksqrt B dt).position }))) :=
        computeStats_setMT ksqrt m _ hc hf hp
    _ = setMT m (MotionObject.computeStats ksqrt
          (MotionObject.updateTrail
            { setMT "linear" (MotionObject.updateLinear ksqrt B dt) with
                meshPos := (setMT "linear"
                  (MotionObject.updateLinear ksqrt B dt)).position })) := by
        exact congrArg (fun z => setMT m (MotionObject.computeStats ksqrt z))
          (updateTrail_setMT "linear"
            { MotionObject.updateLinear ksqrt B dt with
                meshPos := (MotionObject.updateLinear ksqrt B dt).position }).symm

theorem update_default_eq_linear (kcos ksin ksqrt : K → K)
    (e0 : MotionObject K) (m : String) (dt : K)
    (h1 : m ≠ "linear") (h2 : m ≠ "accelerated") (h3 : m ≠ "freefall")
    (h4 : m ≠ "projectile") (h5 : m ≠ "circular") (h6 : m ≠ "relative") :
    MotionObject.update kcos ksin ksqrt (setMT m e0) dt
      = (setMT m (MotionObject.update kcos ksin ksqrt (setMT "linear" e0) dt).1,
         (MotionObject.update kcos ksin ksqrt (setMT "linear" e0) dt).2) := by
  unfold MotionObject.update
  rw [show (setMT m e0).isLaunched = e0.isLaunched from rfl,
      show (setMT "linear" e0).isLaunched = e0.isLaunched from rfl,
      show (setMT m e0).isStopped = e0.isStopped from rfl,
      show (setMT "linear" e0).isStopped = e0.isStopped from rfl]
  split_ifs with htop
  · rfl
  · dsimp only
    rw [show (setMT m e0).motionType = m from rfl,
        show (setMT "linear" e0).motionType = "linear" from rfl]
    split
    next x heq => exact absurd rfl h1
    next x heq => exact absurd rfl h2
    next x heq => exact absurd rfl h3
    next x heq => exact absurd rfl h4
    next x heq => exact absurd rfl h5
    next x heq => exact absurd rfl h6
    next =>
      have hchain := chain_setMT ksqrt m
        { e0 with elapsedTime := e0.elapsedTime + dt } dt h5 h3 h4
      exact Prod.ext hchain (congrArg (fun z => z.status) hchain)


theorem previewPoint_setMT (kcos ksin : K → K) (m : String)
    (e : MotionObject K) (t : K)
    (h1 : m ≠ "linear") (h2 : m ≠ "accelerated") (h3 : m ≠ "freefall")
    (h4 : m ≠ "projectile") (h5 : m ≠ "circular") (h6 : m ≠ "relative") :
    MotionObject.previewPoint kcos ksin (setMT m e) t
      = MotionObject.previewPoint kcos ksin (setMT "linear" e) t := by
  unfold MotionObject.previewPoint
  rw [show (setMT m e).motionType = m from rfl,
      show (setMT "linear" e).motionType = "linear" from rfl]
  split
  next x heq => exact absurd rfl h1
  next x heq => exact absurd rfl h2
  next x heq => exact absurd rfl h3
  next x heq => exact absurd rfl h4
  next x heq => exact absurd rfl h5
  next x heq => exact absurd rfl h6
  next => rfl

theorem previewAux_setMT (kcos ksin : K → K) (m : String) (e : MotionObject K)
    (h1 : m ≠ "linear") (h2 : m ≠ "accelerated") (h3 : m ≠ "freefall")
    (h4 : m ≠ "projectile") (h5 : m ≠ "circular") (h6 : m ≠ "relative") :
    ∀ r i, MotionObject.previewAux kcos ksin (setMT m e) r i
      = MotionObject.previewAux kcos ksin (setMT "linear" e) r i := by
  intro r
  induction r with
  | zero => intro i; rfl
  | succ n ih =>
      intro i
      unfold MotionObject.previewAux
      dsimp only
      rw [previewPoint_setMT kcos ksin m e _ h1 h2 h3 h4 h5 h6]
      rw [show (setMT m e).motionType = m from rfl,
          show (setMT "linear" e).motionType = "linear" from rfl]
      rw [ih (i + 1)]
      simp only [ne_eq, h5, not_false_eq_true, and_true]
      simp +decide

/-- C7: an entity whose motionType is none of the six recognised modes
behaves under update exactly as the same entity with motionType linear:
identical resulting position, velocity, status, stats and returned status,
and the trajectory preview sampler produces the same points. -/
theorem c7_invalid_motion_type_falls_back_to_linear (kcos ksin ksqrt : K → K)
    (e : MotionObject K) (dt : K) (n : Nat)
    (h : e.motionType ∉ (["linear", "accelerated", "freefall", "projectile",
                          "circular", "relative"] : List String)) :
    (MotionObject.update kcos ksin ksqrt e dt).1.position
      = (MotionObject.update kcos ksin ksqrt
          { e with motionType := "linear" } dt).1.position ∧
    (MotionObject.update kcos ksin ksqrt e dt).1.velocity
      = (MotionObject.update kcos ksin ksqrt
          { e with motionType := "linear" } dt).1.velocity ∧
    (MotionObject.update kcos ksin ksqrt e dt).1.status
      = (MotionObject.update kcos ksin ksqrt
          { e with motionType := "linear" } dt).1.status ∧
    (MotionObject.update kcos ksin ksqrt e dt).1.stats
      = (MotionObject.update kcos ksin ksqrt
          { e with motionType := "linear" } dt).1.stats ∧
    (MotionObject.update kcos ksin ksqrt e dt).2
      = (MotionObject.update kcos ksin ksqrt
          { e with motionType := "linear" } dt).2 ∧
    MotionObject.computePreviewPoints kcos ksin e n
      = MotionObject.computePreviewPoints kcos ksin
          { e with motionType := "linear" } n := by
  simp only [List.mem_cons, List.not_mem_nil, or_false, not_or] at h
  obtain ⟨h1, h2, h3, h4, h5, h6⟩ := h
  have H := update_default_eq_linear kcos ksin ksqrt e e.motionType dt
    h1 h2 h3 h4 h5 h6
  have HP := previewAux_setMT kcos ksin e.motionType e h1 h2 h3 h4 h5 h6 n 0
  exact ⟨congrArg (fun r => r.1.position) H, congrArg (fun r => r.1.velocity) H,
    congrArg (fun r => r.1.status) H, congrArg (fun r => r.1.stats) H,
    congrArg (fun r => r.2) H, HP⟩

/-- C7 witness: an entity tagged with the unrecognised mode bogus. -/
theorem c7_witness :
    (c7entity.motionType ∉ (["linear", "accelerated", "freefall", "projectile",
                             "circular", "relative"] : List String)) ∧
    (MotionObject.update jfun jfun jfun c7entity 1).1.position
      = (MotionObject.update jfun jfun jfun
          { c7entity with motionType := "linear" } 1).1.position ∧
    (MotionObject.update jfun jfun jfun c7entity 1).2
      = (MotionObject.update jfun jfun jfun
          { c7entity with motionType := "linear" } 1).2 := by
  have hm : c7entity.motionType
      ∉ (["linear", "accelerated", "freefall", "projectile", "circular",
          "relative"] : List String) := by decide
  have h := c7_invalid_motion_type_falls_back_to_linear jfun jfun jfun
    c7entity 1 5 hm
  exact ⟨hm, h.1, h.2.2.2.2.1⟩


/- ============================ claim C2 ============================ -/

theorem safe_noTrigger {a b : K} (h : 0 < a ∨ 0 ≤ b) : ¬(a ≤ 0 ∧ b < 0) := by
  rcases h with h | h
  · exact fun hc => absurd hc.1 (not_le.mpr h)
  · exact fun hc => absurd hc.2 (not_lt.mpr h)

theorem applyDrag_zero (ksqrt : K → K) (e : MotionObject K) :
    e.applyDrag ksqrt 0 = e := by
  unfold MotionObject.applyDrag
  dsimp only
  split_ifs <;> simp [mul_zero, sub_zero]

theorem updateLinear_zero (ksqrt : K → K) (e : MotionObject K)
    (hcons : e.dragMode = "none" →
      e.position = ⟨e.initialPosition.x + e.initialVelocity.x * e.elapsedTime,
        e.initialPosition.y + e.initialVelocity.y * e.elapsedTime,
        e.initialPosition.z + e.initialVelocity.z * e.elapsedTime⟩)
    (hsafe : ¬(e.position.y ≤ 0 ∧ e.velocity.y < 0)) :
    e.updateLinear ksqrt 0 = e := by
  unfold MotionObject.updateLinear
  dsimp only
  rw [applyDrag_zero]
  by_cases hd : e.dragMode = "none"
  · rw [if_pos hd]
    have hrec : ({ e with position :=
        ⟨e.initialPosition.x + e.initialVelocity.x * e.elapsedTime,
         e.initialPosition.y + e.initialVelocity.y * e.elapsedTime,
         e.initialPosition.z + e.initialVelocity.z * e.elapsedTime⟩ }
        : MotionObject K) = e := by rw [← hcons hd]
    exact (congrArg MotionObject.handleGroundCollision hrec).trans
      (hgc_not_triggered e hsafe)
  · rw [if_neg hd]
    have hrec : ({ e with position :=
        ⟨e.position.x + e.velocity.x * 0, e.position.y + e.velocity.y * 0,
         e.position.z + e.velocity.z * 0⟩ } : MotionObject K) = e := by
      simp [mul_zero, add_zero]
    exact (congrArg MotionObject.handleGroundCollision hrec).trans
      (hgc_not_triggered e hsafe)

theorem updateAccelerated_zero (ksqrt : K → K) (e : MotionObject K)
    (hcons : e.dragMode = "none" →
      e.position = ⟨e.initialPosition.x + e.initialVelocity.x * e.elapsedTime
          + 1 / 2 * e.acceleration.x * e.elapsedTime * e.elapsedTime,
        e.initialPosition.y + e.initialVelocity.y * e.elapsedTime
          + 1 / 2 * e.acceleration.y * e.elapsedTime * e.elapsedTime,
        e.initialPosition.z + e.initialVelocity.z * e.elapsedTime
          + 1 / 2 * e.acceleration.z * e.elapsedTime * e.elapsedTime⟩ ∧
      e.velocity = ⟨e.initialVelocity.x + e.acceleration.x * e.elapsedTime,
        e.initialVelocity.y + e.acceleration.y * e.elapsedTime,
        e.initialVelocity.z + e.acceleration.z * e.elapsedTime⟩)
    (hsafe : ¬(e.position.y ≤ 0 ∧ e.velocity.y < 0)) :
    e.updateAccelerated ksqrt 0 = e := by
  unfold MotionObject.updateAccelerated
  dsimp only
  rw [applyDrag_zero]
  by_cases hd : e.dragMode = "none"
  · rw [if_pos hd]
    have hrec : ({ e with
        position := ⟨e.initialPosition.x + e.initialVelocity.x * e.elapsedTime
            + 1 / 2 * e.acceleration.x * e.elapsedTime * e.elapsedTime,
          e.initialPosition.y + e.initialVelocity.y * e.elapsedTime
            + 1 / 2 * e.acceleration.y * e.elapsedTime * e.elapsedTime,
          e.initialPosition.z + e.initialVelocity.z * e.elapsedTime
            + 1 / 2 * e.acceleration.z * e.elapsedTime * e.elapsedTime⟩,
        velocity := ⟨e.initialVelocity.x + e.acceleration.x * e.elapsedTime,
          e.initialVelocity.y + e.acceleration.y * e.elapsedTime,
          e.initialVelocity.z + e.acceleration.z * e.elapsedTime⟩ }
        : MotionObject K) = e := by
      rw [← (hcons hd).1, ← (hcons hd).2]
    exact (congrArg MotionObject.handleGroundCollision hrec).trans
      (hgc_not_triggered e hsafe)
  · rw [if_neg hd]
    have hrec : ({ e with
        velocity := ⟨e.velocity.x + e.acceleration.x * 0,
          e.velocity.y + e.acceleration.y * 0, e.velocity.z + e.acceleration.z * 0⟩,
        position := ⟨e.position.x + (e.velocity.x + e.acceleration.x * 0) * 0,
          e.position.y + (e.velocity.y + e.acceleration.y * 0) * 0,
          e.position.z + (e.velocity.z + e.acceleration.z * 0) * 0⟩ }
        : MotionObject K) = e := by
      simp [mul_zero, add_zero]
    exact (congrArg MotionObject.handleGroundCollision hrec).trans
      (hgc_not_triggered e hsafe)

theorem updateFreefall_zero (ksqrt : K → K) (e : MotionObject K)
    (hcons : e.dragMode = "none" →
      e.position = ⟨e.initialPosition.x,
        e.initialPosition.y - 1 / 2 * e.gravity * e.elapsedTime * e.elapsedTime,
        e.initialPosition.z⟩ ∧
      e.velocity.y = -e.gravity * e.elapsedTime)
    (hsafe : ¬(e.position.y ≤ 0 ∧ e.velocity.y < 0)) :
    e.updateFreefall ksqrt 0 = e := by
  unfold MotionObject.updateFreefall
  dsimp only
  rw [applyDrag_zero]
  by_cases hd : e.dragMode = "none"
  · rw [if_pos hd]
    have hrec : ({ e with
        position := ⟨e.initialPosition.x,
          e.initialPosition.y - 1 / 2 * e.gravity * e.elapsedTime * e.elapsedTime,
          e.initialPosition.z⟩,
        velocity := ⟨e.velocity.x, -e.gravity * e.elapsedTime, e.velocity.z⟩ }
        : MotionObject K) = e := by
      rw [← (hcons hd).1, ← (hcons hd).2]
    exact (congrArg MotionObject.handleGroundCollision hrec).trans
      (hgc_not_triggered e hsafe)
  · rw [if_neg hd]
    have hrec : ({ e with
        velocity := ⟨e.velocity.x, e.velocity.y + -e.gravity * 0, e.velocity.z⟩,
        position := ⟨e.position.x + e.velocity.x * 0,
          e.position.y + (e.velocity.y + -e.gravity * 0) * 0,
          e.position.z + e.velocity.z * 0⟩ } : MotionObject K) = e := by
      simp [mul_zero, add_zero]
    exact (congrArg MotionObject.handleGroundCollision hrec).trans
      (hgc_not_triggered e hsafe)

theorem updateProjectile_zero (ksqrt : K → K) (e : MotionObject K)
    (hcons : e.dragMode = "none" →
      e.position = ⟨e.initialPosition.x + e.initialVelocity.x * e.elapsedTime,
        e.initialPosition.y + e.initialVelocity.y * e.elapsedTime
          - 1 / 2 * e.gravity * e.elapsedTime * e.elapsedTime,
        e.initialPosition.z + e.initialVelocity.z * e.elapsedTime⟩ ∧
      e.velocity = ⟨e.initialVelocity.x,
        e.initialVelocity.y - e.gravity * e.elapsedTime, e.initialVelocity.z⟩)
    (hsafe : ¬(e.position.y ≤ 0 ∧ e.velocity.y < 0)) :
    e.updateProjectile ksqrt 0 = e := by
  unfold MotionObject.updateProjectile
  dsimp only
  rw [applyDrag_zero]
  by_cases hd : e.dragMode = "none"
  · rw [if_pos hd]
    have hrec : ({ e with
        position := ⟨e.initialPosition.x + e.initialVelocity.x * e.elapsedTime,
          e.initialPosition.y + e.initialVelocity.y * e.elapsedTime
            - 1 / 2 * e.gravity * e.elapsedTime * e.elapsedTime,
          e.initialPosition.z + e.initialVelocity.z * e.elapsedTime⟩,
        velocity := ⟨e.initialVelocity.x,
          e.initialVelocity.y - e.gravity * e.elapsedTime, e.initialVelocity.z⟩ }
        : MotionObject K) = e := by
      rw [← (hcons hd).1, ← (hcons hd).2]
    exact (congrArg MotionObject.handleGroundCollision hrec).trans
      (hgc_not_triggered e hsafe)
  · rw [if_neg hd]
    have hrec : ({ e with
        velocity := ⟨e.velocity.x, e.velocity.y + -e.gravity * 0, e.velocity.z⟩,
        position := ⟨e.position.x + e.velocity.x * 0,
          e.position.y + (e.velocity.y + -e.gravity * 0) * 0,
          e.position.z + e.velocity.z * 0⟩ } : MotionObject K) = e := by
      simp [mul_zero, add_zero]
    exact (congrArg MotionObject.handleGroundCollision hrec).trans
      (hgc_not_triggered e hsafe)

theorem updateCircular_zero (kcos ksin : K → K) (e : MotionObject K)
    (hcons : e.position = ⟨e.circularCenter.x + e.circularRadius
          * kcos ((if e.circularClockwise = true then -1 else 1)
              * e.angularVelocity * e.elapsedTime),
        e.circularCenter.y,
        e.circularCenter.z + e.circularRadius
          * ksin ((if e.circularClockwise = true then -1 else 1)
              * e.angularVelocity * e.elapsedTime)⟩ ∧
      e.velocity = ⟨-e.circularRadius * e.angularVelocity
          * ksin ((if e.circularClockwise = true then -1 else 1)
              * e.angularVelocity * e.elapsedTime)
          * (if e.circularClockwise = true then -1 else 1),
        0,
        e.circularRadius * e.angularVelocity
          * kcos ((if e.circularClockwise = true then -1 else 1)
              * e.angularVelocity * e.elapsedTime)
          * (if e.circularClockwise = true then -1 else 1)⟩) :
    e.updateCircular kcos ksin 0 = e := by
  unfold MotionObject.updateCircular
  dsimp only
  rw [← hcons.1, ← hcons.2]

theorem updateRelative_zero (ksqrt : K → K) (e : MotionObject K)
    (hsafe : e.viewInWorldFrame = true →
      ¬(e.position.y ≤ 0 ∧ e.velocity.y < 0)) :
    e.updateRelative ksqrt 0
      = { e with meshPos := (e.updateRelative ksqrt 0).meshPos } := by
  unfold MotionObject.updateRelative
  dsimp only
  rw [applyDrag_zero]
  by_cases hv : e.viewInWorldFrame = false
  · rw [if_pos hv]
    simp [mul_zero, add_zero]
  · rw [if_neg hv]
    have ht : e.viewInWorldFrame = true := by
      cases h : e.viewInWorldFrame
      · exact absurd h hv
      · rfl
    have hrec : ({ e with position :=
        ⟨e.position.x + (e.velocity.x + e.frameVelocity.x) * 0,
         e.position.y + (e.velocity.y + e.frameVelocity.y) * 0,
         e.position.z + (e.velocity.z + e.frameVelocity.z) * 0⟩ }
        : MotionObject K) = e := by
      simp [mul_zero, add_zero]
    rw [hrec, hgc_not_triggered e (hsafe ht)]


theorem freeze_step_idle (kcos ksin ksqrt : K → K) (e : MotionObject K)
    (h : e.isLaunched = false ∨ e.isStopped = true) :
    MotionObject.update kcos ksin ksqrt e 0 = (e, e.status) := by
  unfold MotionObject.update
  rw [if_pos h]

theorem freeze_step_active (kcos ksin ksqrt : K → K) (e : MotionObject K)
    (hL : e.isLaunched = true) (hS : e.isStopped = false)
    (h : FreezeSafe kcos ksin e) :
    MotionObject.update kcos ksin ksqrt e 0
      = (MotionObject.computeStats ksqrt
          (MotionObject.updateTrail { e with meshPos := e.position }),
         e.status) := by
  obtain ⟨hrem, hflight⟩ := h
  obtain ⟨hcons, hdisj⟩ := hflight hL hS
  unfold MotionObject.update
  rw [if_neg (by simp [hL, hS])]
  dsimp only
  have hrecE : ({ e with elapsedTime := e.elapsedTime + 0 } : MotionObject K)
      = e := by rw [add_zero]
  rw [hrecE]
  split
  next x heq =>
    simp only [ConsistentAt, heq] at hcons
    have hsafe : ¬(e.position.y ≤ 0 ∧ e.velocity.y < 0) := by
      rcases hdisj with hmt | hmt | hnum | hnum
      · rw [heq] at hmt
        exact absurd hmt (by decide)
      · rw [heq] at hmt
        exact absurd hmt.1 (by decide)
      · exact safe_noTrigger (Or.inl hnum)
      · exact safe_noTrigger (Or.inr hnum)
    have hX := updateLinear_zero ksqrt e hcons hsafe
    have h1 : MotionObject.computeStats ksqrt
        (MotionObject.updateTrail { MotionObject.updateLinear ksqrt e 0 with
          meshPos := (MotionObject.updateLinear ksqrt e 0).position })
        = MotionObject.computeStats ksqrt
            (MotionObject.updateTrail { e with meshPos := e.position }) := by
      rw [hX]
    have h2 : (MotionObject.computeStats ksqrt
        (MotionObject.updateTrail { MotionObject.updateLinear ksqrt e 0 with
          meshPos := (MotionObject.updateLinear ksqrt e 0).position })).status = e.status := by
      rw [hX]
      rfl
    exact Prod.ext h1 h2
  next x heq =>
    simp only [ConsistentAt, heq] at hcons
    have hsafe : ¬(e.position.y ≤ 0 ∧ e.velocity.y < 0) := by
      rcases hdisj with hmt | hmt | hnum | hnum
      · rw [heq] at hmt
        exact absurd hmt (by decide)
      · rw [heq] at hmt
        exact absurd hmt.1 (by decide)
      · exact safe_noTrigger (Or.inl hnum)
      · exact safe_noTrigger (Or.inr hnum)
    have hX := updateAccelerated_zero ksqrt e hcons hsafe
    have h1 : MotionObject.computeStats ksqrt
        (MotionObject.updateTrail { MotionObject.updateAccelerated ksqrt e 0 with
          meshPos := (MotionObject.updateAccelerated ksqrt e 0).position })
        = MotionObject.computeStats ksqrt
            (MotionObject.updateTrail { e with meshPos := e.position }) := by
      rw [hX]
    have h2 : (MotionObject.computeStats ksqrt
        (MotionObject.updateTrail { MotionObject.updateAccelerated ksqrt e 0 with
          meshPos := (MotionObject.updateAccelerated ksqrt e 0).position })).status = e.status := by
      rw [hX]
      rfl
    exact Prod.ext h1 h2
  next x heq =>
    simp only [ConsistentAt, heq] at hcons
    have hsafe : ¬(e.position.y ≤ 0 ∧ e.velocity.y < 0) := by
      rcases hdisj with hmt | hmt | hnum | hnum
      · rw [heq] at hmt
        exact absurd hmt (by decide)
      · rw [heq] at hmt
        exact absurd hmt.1 (by decide)
      · exact safe_noTrigger (Or.inl hnum)
      · exact safe_noTrigger (Or.inr hnum)
    have hX := updateFreefall_zero ksqrt e hcons hsafe
    have h1 : MotionObject.computeStats ksqrt
        (MotionObject.updateTrail { MotionObject.updateFreefall ksqrt e 0 with
          meshPos := (MotionObject.updateFreefall ksqrt e 0).position })
        = MotionObject.computeStats ksqrt
            (MotionObject.updateTrail { e with meshPos := e.position }) := by
      rw [hX]
    have h2 : (MotionObject.computeStats ksqrt
        (MotionObject.updateTrail { MotionObject.updateFreefall ksqrt e 0 with
          meshPos := (MotionObject.updateFreefall ksqrt e 0).position })).status = e.status := by
      rw [hX]
      rfl
    exact Prod.ext h1 h2
  next x heq =>
    simp only [ConsistentAt, heq] at hcons
    have hsafe : ¬(e.position.y ≤ 0 ∧ e.velocity.y < 0) := by
      rcases hdisj with hmt | hmt | hnum | hnum
      · rw [heq] at hmt
        exact absurd hmt (by decide)
      · rw [heq] at hmt
        exact absurd hmt.1 (by decide)
      · exact safe_noTrigger (Or.inl hnum)
      · exact safe_noTrigger (Or.inr hnum)
    have hX := updateProjectile_zero ksqrt e hcons hsafe
    have h1 : MotionObject.computeStats ksqrt
        (MotionObject.updateTrail { MotionObject.updateProjectile ksqrt e 0 with
          meshPos := (MotionObject.updateProjectile ksqrt e 0).position })
        = MotionObject.computeStats ksqrt
            (MotionObject.updateTrail { e with meshPos := e.position }) := by
      rw [hX]
    have h2 : (MotionObject.computeStats ksqrt
        (MotionObject.updateTrail { MotionObject.updateProjectile ksqrt e 0 with
          meshPos := (MotionObject.updateProjectile ksqrt e 0).position })).status = e.status := by
      rw [hX]
      rfl
    exact Prod.ext h1 h2
  next x heq =>
    simp only [ConsistentAt, heq] at hcons
    have hX := updateCircular_zero kcos ksin e hcons
    have h1 : MotionObject.computeStats ksqrt
        (MotionObject.updateTrail { MotionObject.updateCircular kcos ksin e 0 with
          meshPos := (MotionObject.updateCircular kcos ksin e 0).position })
        = MotionObject.computeStats ksqrt
            (MotionObject.updateTrail { e with meshPos := e.position }) := by
      rw [hX]
    have h2 : (MotionObject.computeStats ksqrt
        (MotionObject.updateTrail { MotionObject.updateCircular kcos ksin e 0 with
          meshPos := (MotionObject.updateCircular kcos ksin e 0).position })).status = e.status := by
      rw [hX]
      rfl
    exact Prod.ext h1 h2
  next x heq =>
    have hsafe : e.viewInWorldFrame = true →
        ¬(e.position.y ≤ 0 ∧ e.velocity.y < 0) := by
      intro hw
      rcases hdisj with hmt | hmt | hnum | hnum
      · rw [heq] at hmt
        exact absurd hmt (by decide)
      · rw [hw] at hmt
        exact absurd hmt.2 (by decide)
      · exact safe_noTrigger (Or.inl hnum)
      · exact safe_noTrigger (Or.inr hnum)
    have hX := updateRelative_zero ksqrt e hsafe
    have h1 : MotionObject.computeStats ksqrt
        (MotionObject.updateTrail { MotionObject.updateRelative ksqrt e 0 with
          meshPos := (MotionObject.updateRelative ksqrt e 0).position })
        = MotionObject.computeStats ksqrt
            (MotionObject.updateTrail { e with meshPos := e.position }) := by
      rw [hX]
    have h2 : (MotionObject.computeStats ksqrt
        (MotionObject.updateTrail { MotionObject.updateRelative ksqrt e 0 with
          meshPos := (MotionObject.updateRelative ksqrt e 0).position })).status = e.status := by
      rw [hX]
      rfl
    exact Prod.ext h1 h2
  next hn1 hn2 hn3 hn4 hn5 hn6 =>
    unfold ConsistentAt at hcons
    split at hcons
    next y heq2 => exact absurd heq2 hn2
    next y heq2 => exact absurd heq2 hn3
    next y heq2 => exact absurd heq2 hn4
    next y heq2 => exact absurd heq2 hn5
    next y heq2 => exact absurd heq2 hn6
    next =>
      have hsafe : ¬(e.position.y ≤ 0 ∧ e.velocity.y < 0) := by
        rcases hdisj with hmt | hmt | hnum | hnum
        · exact absurd hmt hn5
        · exact absurd hmt.1 hn6
        · exact safe_noTrigger (Or.inl hnum)
        · exact safe_noTrigger (Or.inr hnum)
      have hX := updateLinear_zero ksqrt e hcons hsafe
      have h1 : MotionObject.computeStats ksqrt
          (MotionObject.updateTrail { MotionObject.updateLinear ksqrt e 0 with
            meshPos := (MotionObject.updateLinear ksqrt e 0).position })
          = MotionObject.computeStats ksqrt
              (MotionObject.updateTrail { e with meshPos := e.position }) := by
        rw [hX]
      have h2 : (MotionObject.computeStats ksqrt
          (MotionObject.updateTrail { MotionObject.updateLinear ksqrt e 0 with
            meshPos := (MotionObject.updateLinear ksqrt e 0).position })).status = e.status := by
        rw [hX]
        rfl
      exact Prod.ext h1 h2


theorem freeze_step_obs (kcos ksin ksqrt : K → K) (e : MotionObject K)
    (h : FreezeSafe kcos ksin e) :
    (MotionObject.update kcos ksin ksqrt e 0).1.elapsedTime = e.elapsedTime ∧
    (MotionObject.update kcos ksin ksqrt e 0).1.position = e.position ∧
    (MotionObject.update kcos ksin ksqrt e 0).1.velocity = e.velocity ∧
    (MotionObject.update kcos ksin ksqrt e 0).2 = e.status ∧
    FreezeSafe kcos ksin (MotionObject.update kcos ksin ksqrt e 0).1 := by
  by_cases hAct : e.isLaunched = false ∨ e.isStopped = true
  · rw [freeze_step_idle kcos ksin ksqrt e hAct]
    exact ⟨rfl, rfl, rfl, rfl, h⟩
  · have hL : e.isLaunched = true := by
      cases hq : e.isLaunched
      · exact absurd (Or.inl hq) hAct
      · rfl
    have hS : e.isStopped = false := by
      cases hq : e.isStopped
      · rfl
      · exact absurd (Or.inr hq) hAct
    rw [freeze_step_active kcos ksin ksqrt e hL hS h]
    exact ⟨rfl, rfl, rfl, rfl, h⟩

theorem simLoop_freeze (kcos ksin ksqrt : K → K) :
    ∀ l : List (MotionObject K), (∀ x ∈ l, FreezeSafe kcos ksin x) →
    (simLoop kcos ksin ksqrt 0 l).2 = [] ∧
    List.map (fun x => (x.elapsedTime, x.position, x.velocity))
        (simLoop kcos ksin ksqrt 0 l).1
      = List.map (fun x => (x.elapsedTime, x.position, x.velocity)) l ∧
    (∀ x ∈ (simLoop kcos ksin ksqrt 0 l).1, FreezeSafe kcos ksin x) := by
  intro l
  induction l with
  | nil =>
      intro _
      exact ⟨rfl, rfl, by intro x hx; simp [simLoop] at hx⟩
  | cons o rest ih =>
      intro hsafe
      obtain ⟨ih1, ih2, ih3⟩ :=
        ih (fun x hx => hsafe x (List.mem_cons_of_mem _ hx))
      have ho := hsafe o (List.mem_cons_self _ _)
      obtain ⟨hE, hP, hV, hSt, hSafe2⟩ := freeze_step_obs kcos ksin ksqrt o ho
      unfold simLoop
      dsimp only
      rw [if_neg (by rw [hSt]; exact ho.1)]
      refine ⟨ih1, ?_, ?_⟩
      · simp only [List.map_cons, ih2, hE, hP, hV]
      · intro x hx
        rcases List.mem_cons.mp hx with hx | hx
        · rw [hx]
          exact hSafe2
        · exact ih3 x hx

theorem kin_update_freeze (kcos ksin ksqrt : K → K)
    (s : KinematicsSimulation K) (hts : s.timeScale = 0)
    (hsafe : ∀ x ∈ s.motionObjects, FreezeSafe kcos ksin x) (d : K) :
    (KinematicsSimulation.update kcos ksin ksqrt s d).1.timeScale = 0 ∧
    List.map (fun x => (x.elapsedTime, x.position, x.velocity))
        (KinematicsSimulation.update kcos ksin ksqrt s d).1.motionObjects
      = List.map (fun x => (x.elapsedTime, x.position, x.velocity))
          s.motionObjects ∧
    (∀ x ∈ (KinematicsSimulation.update kcos ksin ksqrt s d).1.motionObjects,
      FreezeSafe kcos ksin x) := by
  unfold KinematicsSimulation.update
  dsimp only
  rw [hts, mul_zero]
  obtain ⟨h1, h2, h3⟩ := simLoop_freeze kcos ksin ksqrt s.motionObjects hsafe
  exact ⟨rfl, h2, h3⟩

/-- C2 (amended): for an orchestrator frozen at timeScale 0, any finite
sequence of update calls leaves every held entity's elapsedTime, position
and velocity unchanged, provided every entity is FreezeSafe: not externally
flagged remove and, when in flight, analytically consistent with its launch
  snapshot and not sitting in the ground-contact trigger.  (The trigger
exclusion is forced by the counterexample below; consistency holds for any
entity that has only been launched and updated.) -/
theorem c2_timescale_freeze (kcos ksin ksqrt : K → K) :
    ∀ (ds : List K) (s : KinematicsSimulation K), s.timeScale = 0 →
    (∀ x ∈ s.motionObjects, FreezeSafe kcos ksin x) →
    List.map (fun x => (x.elapsedTime, x.position, x.velocity))
        (KinematicsSimulation.updates kcos ksin ksqrt s ds).motionObjects
      = List.map (fun x => (x.elapsedTime, x.position, x.velocity))
          s.motionObjects := by
  intro ds
  induction ds with
  | nil => intro s _ _; rfl
  | cons d rest ih =>
      intro s hts hsafe
      obtain ⟨h1, h2, h3⟩ := kin_update_freeze kcos ksin ksqrt s hts hsafe d
      have hstep : KinematicsSimulation.updates kcos ksin ksqrt s (d :: rest)
          = KinematicsSimulation.updates kcos ksin ksqrt
              (KinematicsSimulation.update kcos ksin ksqrt s d).1 rest := rfl
      rw [hstep, ih _ h1 h3, h2]

/-- C2 counterexample: an entity launched at ground level with downward
velocity, in an orchestrator with timeScale 0.  One update(1) call passes
dt = 0 to the entity, yet the ground resolver still fires and flips
velocity.y from -1 to 7/10: the freeze claim as stated is false. -/
theorem c2_counterexample :
    c2simCex.timeScale = 0 ∧
    (c2simCex.motionObjects.map fun x => x.velocity.y) = [-1] ∧
    ((KinematicsSimulation.update jfun jfun jfun c2simCex 1).1.motionObjects.map
        fun x => x.velocity.y) = [7 / 10] := by
  refine ⟨rfl, ?_, ?_⟩
  · norm_num +decide [c2simCex, mkMotionObject, MotionObject.launch]
  · norm_num +decide [c2simCex, jfun, mkMotionObject, MotionObject.launch,
      KinematicsSimulation.update, simLoop, MotionObject.update,
      MotionObject.updateLinear, MotionObject.applyDrag,
      MotionObject.handleGroundCollision, MotionObject.updateTrail,
      MotionObject.computeStats, vlen, abs_of_nonneg, abs_of_nonpos]

/-- C2 witness: a frozen orchestrator holding a safe launched linear entity
observes no change across two update calls. -/
theorem c2_witness :
    (c2sim.timeScale = 0 ∧ ∀ x ∈ c2sim.motionObjects, FreezeSafe jfun jfun x) ∧
    List.map (fun x => (x.elapsedTime, x.position, x.velocity))
        (KinematicsSimulation.updates jfun jfun jfun c2sim [1, 2]).motionObjects
      = List.map (fun x => (x.elapsedTime, x.position, x.velocity))
          c2sim.motionObjects := by
  have hsafe : ∀ x ∈ c2sim.motionObjects, FreezeSafe jfun jfun x := by
    intro x hx
    simp only [c2sim, List.mem_singleton] at hx
    rw [hx]
    constructor
    · norm_num +decide [mkMotionObject, MotionObject.launch]
    · intro _ _
      constructor
      · norm_num +decide [ConsistentAt, mkMotionObject, MotionObject.launch]
      · right; right; left
        norm_num +decide [mkMotionObject, MotionObject.launch]
  exact ⟨⟨rfl, hsafe⟩, c2_timescale_freeze jfun jfun jfun [1, 2] c2sim rfl hsafe⟩

end PhysicsSandbox
